import Mathlib

/-!
Shallow embedding of the spark-mcp data-access layer (`spark_mcp/database.py`),
the PDF operations (`spark_mcp/pdf_operations.py`), the template persistence
(`spark_mcp/config.py`) and the tool dispatch boundary (`spark_mcp/server.py`),
together with theorems settling the behavioural claims about them.

Modelling conventions:
* A SQLite table is a `List` of row structures; a query is a Lean function over
  that list mirroring the WHERE / ORDER BY / LIMIT / OFFSET pipeline the Python
  code assembles.
* ISO date strings are represented by their parsed POSIX timestamps
  (`Option Int`); `datetime.now()` is an explicit `now : Int` parameter.
* `datetime(ts, 'unixepoch')` display formatting is injective, so formatted
  dates are carried as the underlying integer timestamp.
* SQLite `LIKE` is ASCII case-insensitive substring matching; `json_extract`
  results on the `meta` blob are carried as row attributes alongside the raw
  blob (the blob itself is kept for the `LIKE '%mtid%'` tests).
* The FTS5 engine (`MATCH`, `rank`, `snippet`) is external third-party code;
  its output for the query at hand is passed in as a rank-ordered hit list,
  exactly the data the Python code receives back from the search database.
* Floating point arithmetic in the PDF geometry is modelled over `ℚ`.
-/

namespace SparkMCP

/-! ## Small Python/SQL semantic helpers -/

/-- Python `x or default` for a nullable string column: `None` and `""` are
falsy and replaced by the default. -/
def pyOrStr (o : Option String) (d : String) : String :=
  match o with
  | none => d
  | some s => if s = "" then d else s

/-- Python truthiness of an optional integer (`None` and `0` are falsy). -/
def truthyOptInt (o : Option Int) : Bool :=
  match o with
  | none => false
  | some v => v != 0

/-- Python `bool(x)` for a nullable string column (`NULL` and `""` are falsy). -/
def optStrTruthy (o : Option String) : Bool :=
  match o with
  | none => false
  | some s => s ≠ ""

/-- Substring test on character lists. -/
def hasSubAux (pat : List Char) : List Char → Bool
  | [] => pat.isEmpty
  | c :: rest => pat.isPrefixOf (c :: rest) || hasSubAux pat rest

/-- SQLite `s LIKE '%pat%'`: ASCII case-insensitive substring containment. -/
def sqlLikeSub (pat : String) (s : String) : Bool :=
  hasSubAux (pat.data.map Char.toLower) (s.data.map Char.toLower)

/-- SQLite `meta LIKE '%mtid%'`: `NULL` yields `NULL`, which is not true. -/
def metaLikeMtid : Option String → Bool
  | none => false
  | some s => sqlLikeSub "mtid" s

/-- SQLite `col LIKE '%pat%'` on a nullable column: `NULL` is not a match. -/
def sqlLikeSubOpt (pat : String) : Option String → Bool
  | none => false
  | some s => sqlLikeSub pat s

/-- SQLite `(meta NOT LIKE '%mtid%' OR meta IS NULL)`. -/
def metaNotLikeMtidOrNull : Option String → Bool
  | none => true
  | some s => !(sqlLikeSub "mtid" s)

/-- SQL `LIMIT limit OFFSET offset` applied to an ordered row list. -/
def sqlPage (l : List α) (limit offset : Nat) : List α :=
  (l.drop offset).take limit

/-! ## Messages store (`messages` table) and full-text index -/

/-- One row of the `messages` table.  The `metaMt*` fields carry the values of
`json_extract(meta, '$.mt…')` on this row's metadata blob; the raw blob is kept
in `meta` for the `LIKE '%mtid%'` tests.  The `inInbox`/`inSent`/… columns are
integers compared against `1`, exactly as the SQL does. -/
structure Message where
  pk : Int
  subject : Option String
  messageFrom : Option String
  messageTo : Option String
  receivedDate : Int
  inInbox : Int
  inSent : Int
  inDrafts : Int
  unseen : Int
  starred : Int
  conversationPk : Int
  numberOfFileAttachments : Int
  meta : Option String
  metaMtid : Option String
  metaMtskp : Option Int
  metaMtes : Option String
  metaMtsd : Option Int
  metaMted : Option Int
  deriving Repr, DecidableEq

/-- One row of the FTS database's `messagesfts` table. -/
structure SearchEntry where
  messagePk : Int
  searchBody : String
  deriving Repr, DecidableEq

/-- One hit returned by an FTS5 `MATCH … ORDER BY rank` query: message key,
`snippet(…)`/`searchBody` excerpt, and the FTS5 rank (lower is better). -/
structure FtsHit where
  messagePk : Int
  excerpt : String
  rank : Int
  deriving Repr, DecidableEq

/-- Stable insertion used to model SQL `ORDER BY` (kernel-computable). -/
def insertOrdered (le : α → α → Bool) (a : α) : List α → List α
  | [] => [a]
  | b :: l => if le a b then a :: b :: l else b :: insertOrdered le a l

/-- SQL `ORDER BY` with comparison `le` (a stable insertion sort). -/
def sqlOrderBy (le : α → α → Bool) (l : List α) : List α :=
  l.foldr (insertOrdered le) []

/-- `ORDER BY receivedDate DESC`. -/
def sortByRecvDesc (l : List Message) : List Message :=
  sqlOrderBy (fun a b => decide (b.receivedDate ≤ a.receivedDate)) l

/-- `ORDER BY rank` (ascending) on FTS hits. -/
def sortByRank (l : List FtsHit) : List FtsHit :=
  sqlOrderBy (fun a b => decide (a.rank ≤ b.rank)) l

/-- The `receivedDate >= ? / receivedDate <= ?` fragments contributed by the
optional `start_date` / `end_date` filters. -/
def recvDateFilter (startTs endTs : Option Int) (m : Message) : Bool :=
  (match startTs with | none => true | some t => decide (m.receivedDate ≥ t)) &&
  (match endTs with | none => true | some t => decide (m.receivedDate ≤ t))

/-- `SparkDatabase._get_text_lengths` restricted to `pks`, then Python
`dict.get(pk, 0)` (later duplicate rows overwrite earlier ones). -/
def textLengthsLookup (search : List SearchEntry) (pks : List Int) (pk : Int) : Nat :=
  match (search.filter (fun e => pks.contains e.messagePk)).reverse.find?
      (fun e => e.messagePk == pk) with
  | some e => e.searchBody.length
  | none => 0

/-! ## `list_transcripts` -/

/-- One emitted transcript summary (meeting dates kept as the raw millisecond
values the code formats; `None`-producing falsy values are mapped to `none`). -/
structure TranscriptItem where
  messagePk : Int
  subject : String
  sender : String
  receivedDate : Int
  meetingStartMs : Option Int
  meetingEndMs : Option Int
  transcriptId : Option String
  isCalendarEvent : Bool
  eventSummary : Option String
  textLength : Nat
  hasFullText : Bool
  deriving Repr, DecidableEq

structure TranscriptsResult where
  transcripts : List TranscriptItem
  total : Nat
  deriving Repr, DecidableEq

/-- The accumulated WHERE clause of `SparkDatabase.list_transcripts`. -/
def transcriptFilter (onlyKept : Bool) (startTs endTs : Option Int)
    (includeAdHoc : Bool) (m : Message) : Bool :=
  metaLikeMtid m.meta &&
  (!onlyKept || m.metaMtskp == some 1) &&
  recvDateFilter startTs endTs m &&
  (includeAdHoc || m.metaMtes.isSome)

/-- `SparkDatabase.list_transcripts`: count matching rows, page the matching
rows ordered by `receivedDate DESC`, join text lengths from the FTS store. -/
def list_transcripts (store : List Message) (search : List SearchEntry)
    (startTs endTs : Option Int) (includeAdHoc onlyKept : Bool)
    (limit offset : Nat) : TranscriptsResult :=
  let pred := transcriptFilter onlyKept startTs endTs includeAdHoc
  let total := (store.filter pred).length
  let rows := sqlPage (sortByRecvDesc (store.filter pred)) limit offset
  let pks := rows.map (fun r => r.pk)
  let lengths := textLengthsLookup search pks
  { transcripts := rows.map (fun r =>
      { messagePk := r.pk
        subject := pyOrStr r.subject "Untitled"
        sender := pyOrStr r.messageFrom "Unknown"
        receivedDate := r.receivedDate
        meetingStartMs := if truthyOptInt r.metaMtsd then r.metaMtsd else none
        meetingEndMs := if truthyOptInt r.metaMted then r.metaMted else none
        transcriptId := r.metaMtid
        isCalendarEvent := r.metaMtes.isSome
        eventSummary := r.metaMtes
        textLength := lengths r.pk
        hasFullText := decide (lengths r.pk > 0) })
    total := total }

/-! ## `list_emails` -/

structure EmailItem where
  messagePk : Int
  subject : String
  sender : String
  recipients : String
  receivedDate : Int
  unread : Bool
  starred : Bool
  conversationPk : Int
  hasAttachments : Bool
  deriving Repr, DecidableEq

structure EmailsResult where
  emails : List EmailItem
  total : Nat
  deriving Repr, DecidableEq

/-- The accumulated WHERE clause of `SparkDatabase.list_emails`.  A `sender`
argument that is `None` or `""` is falsy in Python and contributes no
fragment. -/
def emailFilter (folder : String) (unreadOnly : Bool) (startTs endTs : Option Int)
    (sender : Option String) (m : Message) : Bool :=
  metaNotLikeMtidOrNull m.meta &&
  (if folder = "inbox" then m.inInbox == 1
   else if folder = "sent" then m.inSent == 1
   else if folder = "drafts" then m.inDrafts == 1
   else true) &&
  (!unreadOnly || m.unseen == 1) &&
  recvDateFilter startTs endTs m &&
  (match sender with
   | none => true
   | some s => if s = "" then true else sqlLikeSubOpt s m.messageFrom)

/-- `SparkDatabase.list_emails`. -/
def list_emails (store : List Message) (folder : String) (unreadOnly : Bool)
    (startTs endTs : Option Int) (sender : Option String)
    (limit offset : Nat) : EmailsResult :=
  let pred := emailFilter folder unreadOnly startTs endTs sender
  let total := (store.filter pred).length
  let rows := sqlPage (sortByRecvDesc (store.filter pred)) limit offset
  { emails := rows.map (fun r =>
      { messagePk := r.pk
        subject := pyOrStr r.subject "(No Subject)"
        sender := pyOrStr r.messageFrom "Unknown"
        recipients := pyOrStr r.messageTo ""
        receivedDate := r.receivedDate
        unread := r.unseen == (1 : Int)
        starred := r.starred == (1 : Int)
        conversationPk := r.conversationPk
        hasAttachments := decide (r.numberOfFileAttachments > (0 : Int)) })
    total := total }

/-! ## `search_emails` and `search_transcripts`

The FTS5 query `SELECT messagePk, snippet(…), rank FROM messagesfts WHERE
searchBody MATCH ? ORDER BY rank LIMIT ?` is modelled by rank-sorting the
engine's full hit list for the query (`ftsAll`) and taking the first
`limit * 2` hits, which is exactly the row set the Python code receives. -/

structure SearchItem where
  messagePk : Int
  subject : String
  sender : String
  receivedDate : Int
  excerpt : String
  relevanceScore : Int
  deriving Repr, DecidableEq

structure SearchResult where
  results : List SearchItem
  total : Nat
  deriving Repr, DecidableEq

/-- The `fts_rows` both search methods fetch from the FTS database. -/
def ftsRowsFor (ftsAll : List FtsHit) (n : Nat) : List FtsHit :=
  (sortByRank ftsAll).take n

/-- The second (metadata) query of `search_emails`: rows whose `pk` is in the
hit set, excluding transcripts, with the optional date fragments. -/
def searchEmailsMetaPred (pks : List Int) (startTs endTs : Option Int)
    (m : Message) : Bool :=
  pks.contains m.pk && metaNotLikeMtidOrNull m.meta && recvDateFilter startTs endTs m

/-- The second (metadata) query of `search_transcripts`: rows whose `pk` is in
the hit set, requiring the transcript marker, with the date fragments. -/
def searchTranscriptsMetaPred (pks : List Int) (startTs endTs : Option Int)
    (m : Message) : Bool :=
  pks.contains m.pk && metaLikeMtid m.meta && recvDateFilter startTs endTs m

/-- Python `{row['pk']: row for row in rows}` followed by lookup: later rows
overwrite earlier ones. -/
def rowDictLookup (rows : List Message) (pk : Int) : Option Message :=
  rows.reverse.find? (fun r => r.pk == pk)

/-- `SparkDatabase.search_emails`: FTS hits first (rank order), then the
application-side join against the qualifying metadata rows, emitting hits in
driving order, stopping once `limit` results are collected. -/
def search_emails (store : List Message) (ftsAll : List FtsHit)
    (startTs endTs : Option Int) (limit : Nat) : SearchResult :=
  let ftsRows := ftsRowsFor ftsAll (limit * 2)
  if ftsRows.isEmpty then { results := [], total := 0 }
  else
    let pks := ftsRows.map (fun h => h.messagePk)
    let metadataRows := store.filter (searchEmailsMetaPred pks startTs endTs)
    let results := (ftsRows.filterMap (fun h =>
      (rowDictLookup metadataRows h.messagePk).map (fun meta =>
        ({ messagePk := h.messagePk
           subject := pyOrStr meta.subject "(No Subject)"
           sender := pyOrStr meta.messageFrom "Unknown"
           receivedDate := meta.receivedDate
           excerpt := pyOrStr (some h.excerpt) ""
           relevanceScore := -h.rank } : SearchItem)))).take limit
    { results := results, total := results.length }

/-- `SparkDatabase.search_transcripts` (the `include_context` flag only selects
which excerpt expression the FTS query computes, carried in the hit). -/
def search_transcripts (store : List Message) (ftsAll : List FtsHit)
    (startTs endTs : Option Int) (limit : Nat) : SearchResult :=
  let ftsRows := ftsRowsFor ftsAll (limit * 2)
  if ftsRows.isEmpty then { results := [], total := 0 }
  else
    let pks := ftsRows.map (fun h => h.messagePk)
    let metadataRows := store.filter (searchTranscriptsMetaPred pks startTs endTs)
    let results := (ftsRows.filterMap (fun h =>
      (rowDictLookup metadataRows h.messagePk).map (fun meta =>
        ({ messagePk := h.messagePk
           subject := pyOrStr meta.subject "Untitled"
           sender := pyOrStr meta.messageFrom "Unknown"
           receivedDate := meta.receivedDate
           excerpt := pyOrStr (some h.excerpt) ""
           relevanceScore := -h.rank } : SearchItem)))).take limit
    { results := results, total := results.length }

/-! ## `find_pending_responses` -/

structure PendingItem where
  messagePk : Int
  subject : String
  sender : String
  receivedDate : Int
  conversationPk : Int
  daysOld : Int
  deriving Repr, DecidableEq

structure PendingResult where
  emails : List PendingItem
  total : Nat
  deriving Repr, DecidableEq

/-- The WHERE clause of `find_pending_responses`: inbox, within the lookback
window, not a transcript, and no `NOT EXISTS` sent reply in the same
conversation with a strictly later `receivedDate`. -/
def pendingFilter (store : List Message) (cutoff : Int) (m : Message) : Bool :=
  m.inInbox == (1 : Int) &&
  decide (m.receivedDate ≥ cutoff) &&
  metaNotLikeMtidOrNull m.meta &&
  !(store.any (fun reply =>
      reply.conversationPk == m.conversationPk &&
      reply.inSent == (1 : Int) &&
      decide (reply.receivedDate > m.receivedDate)))

/-- `SparkDatabase.find_pending_responses`. -/
def find_pending_responses (store : List Message) (now : Int) (days : Int)
    (limit : Nat) : PendingResult :=
  let cutoff := now - days * 86400
  let rows := (sortByRecvDesc (store.filter (pendingFilter store cutoff))).take limit
  let emails := rows.map (fun r =>
    ({ messagePk := r.pk
       subject := pyOrStr r.subject "(No Subject)"
       sender := pyOrStr r.messageFrom "Unknown"
       receivedDate := r.receivedDate
       conversationPk := r.conversationPk
       daysOld := (now - r.receivedDate).fdiv 86400 } : PendingItem))
  { emails := emails, total := emails.length }

/-! ## Calendar store (`RDCALAPIEvent`, `RDCALAPIAttendee`) -/

structure CalEvent where
  pk : Int
  summary : Option String
  descriptionProperty : Option String
  dstart : Int
  dend : Int
  location : Option String
  locationTitle : Option String
  allDay : Int
  status : Int
  conferenceInfo : Option String
  deriving Repr, DecidableEq

structure Attendee where
  refEventPK : Int
  name : Option String
  email : Option String
  partStat : Int
  role : Int
  deriving Repr, DecidableEq

structure EventItem where
  eventPk : Int
  summary : String
  description : String
  startTime : Int
  endTime : Int
  location : String
  allDay : Bool
  status : Int
  hasConferenceLink : Bool
  deriving Repr, DecidableEq

structure EventsResult where
  events : List EventItem
  total : Nat
  deriving Repr, DecidableEq

/-- `ORDER BY dstart` (ascending). -/
def sortByDstart (l : List CalEvent) : List CalEvent :=
  sqlOrderBy (fun a b => decide (a.dstart ≤ b.dstart)) l

/-- The window predicate `dstart >= start_ts AND dstart < end_ts`. -/
def eventWindow (startTs endTs : Int) (e : CalEvent) : Bool :=
  decide (e.dstart ≥ startTs) && decide (e.dstart < endTs)

/-- `SparkDatabase.list_events`.  `defaultStartTs` models the midnight-of-today
timestamp computed from the clock when `start_date` is omitted; without an
`end_date` the window extends `days_ahead` days past the start.  Note that the
reported `total` is the length of the returned (LIMIT-bounded) page — there is
no separate count query here. -/
def list_events (cal : List CalEvent) (startTs endTs : Option Int)
    (defaultStartTs : Int) (daysAhead : Int) (limit : Nat) : EventsResult :=
  let start := startTs.getD defaultStartTs
  let stop := endTs.getD (start + daysAhead * 86400)
  let rows := (sortByDstart (cal.filter (eventWindow start stop))).take limit
  let events := rows.map (fun e =>
    ({ eventPk := e.pk
       summary := pyOrStr e.summary "(No Title)"
       description := pyOrStr e.descriptionProperty ""
       startTime := e.dstart
       endTime := e.dend
       location := pyOrStr e.locationTitle (pyOrStr e.location "")
       allDay := e.allDay == (1 : Int)
       status := e.status
       hasConferenceLink := optStrTruthy e.conferenceInfo } : EventItem))
  { events := events, total := events.length }

/-! ## `find_events_needing_prep` -/

structure PrepItem where
  eventPk : Int
  summary : String
  startTime : Int
  endTime : Int
  location : String
  attendeeCount : Nat
  hasConferenceLink : Bool
  durationMinutes : Int
  deriving Repr, DecidableEq

structure PrepResult where
  events : List PrepItem
  total : Nat
  deriving Repr, DecidableEq

/-- `SELECT COUNT(*) FROM RDCALAPIAttendee WHERE refEventPK = ?`. -/
def attendeeCountOf (atts : List Attendee) (pk : Int) : Nat :=
  (atts.filter (fun a => a.refEventPK == pk)).length

/-- The prep heuristic: more than one attendee, or a conference link, or a
duration strictly greater than 1800 seconds (30 minutes). -/
def needsPrep (atts : List Attendee) (e : CalEvent) : Bool :=
  decide (attendeeCountOf atts e.pk > 1) ||
  optStrTruthy e.conferenceInfo ||
  decide (e.dend - e.dstart > 1800)

/-- The SQL row predicate of `find_events_needing_prep`:
`dstart >= now AND dstart < now + hours*3600 AND status != 3`. -/
def prepWindow (now endTs : Int) (e : CalEvent) : Bool :=
  decide (e.dstart ≥ now) && decide (e.dstart < endTs) && e.status != 3

/-- `SparkDatabase.find_events_needing_prep`: fetch up to `limit * 2` upcoming
non-cancelled events in start order, keep those satisfying the prep heuristic,
truncate to `limit`.  (`hoursUntil`, a float-formatted display field, is
omitted.) -/
def find_events_needing_prep (cal : List CalEvent) (atts : List Attendee)
    (now : Int) (hoursAhead : Int) (limit : Nat) : PrepResult :=
  let stop := now + hoursAhead * 3600
  let rows := (sortByDstart (cal.filter (prepWindow now stop))).take (limit * 2)
  let events := ((rows.filter (needsPrep atts)).map (fun e =>
    ({ eventPk := e.pk
       summary := pyOrStr e.summary "(No Title)"
       startTime := e.dstart
       endTime := e.dend
       location := pyOrStr e.locationTitle (pyOrStr e.location "")
       attendeeCount := attendeeCountOf atts e.pk
       hasConferenceLink := optStrTruthy e.conferenceInfo
       durationMinutes := (e.dend - e.dstart).fdiv 60 } : PrepItem))).take limit
  { events := events, total := events.length }

/-! ## PDF signature placement geometry (`pdf_operations.py`)

PyMuPDF coordinates: the y axis grows downward, so a rectangle's bottom edge
is its `y1`.  Float arithmetic is modelled over `ℚ`. -/

structure Rect where
  x0 : ℚ
  y0 : ℚ
  x1 : ℚ
  y1 : ℚ
  deriving Repr, DecidableEq

def Rect.rectWidth (r : Rect) : ℚ := r.x1 - r.x0

def Rect.rectHeight (r : Rect) : ℚ := r.y1 - r.y0

/-- The signature rectangle computed by `PDFOperations.add_signature`: the
image's aspect ratio is `imgH / imgW`, the rectangle is `width` wide and
`width * aspect` tall; missing coordinates default to bottom-right with a
50-point margin. -/
def addSignatureRect (pageW pageH : ℚ) (imgW imgH : ℚ) (xArg yArg : Option ℚ)
    (width : ℚ) : Rect :=
  let aspectRatio := imgH / imgW
  let sigW := width
  let sigH := width * aspectRatio
  let margin : ℚ := 50
  let x := xArg.getD (pageW - sigW - margin)
  let y := yArg.getD (pageH - sigH - margin)
  { x0 := x, y0 := y, x1 := x + sigW, y1 := y + sigH }

/-- The signature rectangle computed by `PDFOperations.fill_and_sign`: a
located signature form field wins outright; otherwise `y_from_top` (the
signature line measured from the top, with the image's bottom aligned to it)
takes precedence over `y` (the image top); with neither, bottom-right with a
50-point margin. -/
def fillAndSignRect (pageW pageH : ℚ) (imgW imgH : ℚ) (fieldRect : Option Rect)
    (xArg yArg yFromTop : Option ℚ) (width : ℚ) : Rect :=
  let aspectRatio := imgH / imgW
  let sigW := width
  let sigH := width * aspectRatio
  match fieldRect with
  | some r => r
  | none =>
    let margin : ℚ := 50
    let x := xArg.getD (pageW - sigW - margin)
    match yFromTop with
    | some t => { x0 := x, y0 := t - sigH, x1 := x + sigW, y1 := t }
    | none =>
      match yArg with
      | some y => { x0 := x, y0 := y, x1 := x + sigW, y1 := y + sigH }
      | none =>
        let y := pageH - sigH - margin
        { x0 := x, y0 := y, x1 := x + sigW, y1 := y + sigH }

/-! ## PDF templates (`config.py` + template methods of `pdf_operations.py`)

The per-user template directory (one JSON file per template name) is modelled
as an association list keyed by template name; JSON (de)serialisation of the
template payload is the identity on the parsed record. -/

/-- One field placement of a template, after the `dict.get` defaults of
`fill_from_template` (`page` default −1, `x`/`y` default 0, `fontSize` default
12, `type` default `"text"`, `width` default 150) have been applied. -/
structure TemplateField where
  fieldName : String
  page : Int
  x : ℚ
  y : ℚ
  fontSize : ℚ
  type : String
  width : ℚ
  deriving Repr, DecidableEq

structure TemplateData where
  name : String
  description : String
  fields : List TemplateField
  deriving Repr, DecidableEq

/-- The templates directory: one entry per stored template file. -/
abbrev TemplateStore := List (String × TemplateData)

/-- `config.save_template`: write (create or fully overwrite) the file named
after the template. -/
def save_template (s : TemplateStore) (n : String) (d : TemplateData) : TemplateStore :=
  (n, d) :: s.filter (fun p => p.1 ≠ n)

/-- `config.load_template`: read the file if present. -/
def load_template (s : TemplateStore) (n : String) : Option TemplateData :=
  (s.find? (fun p => p.1 == n)).map (fun p => p.2)

/-- `config.delete_template`: unlink the file if it exists, reporting whether
anything was deleted. -/
def delete_template (s : TemplateStore) (n : String) : TemplateStore × Bool :=
  if s.any (fun p => p.1 == n) then (s.filter (fun p => p.1 ≠ n), true)
  else (s, false)

structure TemplateSummary where
  name : String
  fieldCount : Nat
  description : String
  deriving Repr, DecidableEq

/-- `config.list_templates`. -/
def list_templates (s : TemplateStore) : List TemplateSummary :=
  s.map (fun p =>
    { name := p.1, fieldCount := p.2.fields.length, description := p.2.description })

structure SaveTemplateResult where
  success : Bool
  templateName : String
  fieldCount : Nat
  deriving Repr, DecidableEq

/-- `PDFOperations.save_pdf_template`. -/
def save_pdf_template (s : TemplateStore) (templateName : String)
    (fields : List TemplateField) (description : Option String) :
    TemplateStore × SaveTemplateResult :=
  let data : TemplateData :=
    { name := templateName, description := pyOrStr description "", fields := fields }
  (save_template s templateName data,
   { success := true, templateName := templateName, fieldCount := fields.length })

structure ListTemplatesResult where
  success : Bool
  templates : List TemplateSummary
  total : Nat
  deriving Repr, DecidableEq

/-- `PDFOperations.list_pdf_templates`. -/
def list_pdf_templates (s : TemplateStore) : ListTemplatesResult :=
  let ts := list_templates s
  { success := true, templates := ts, total := ts.length }

structure DeleteTemplateResult where
  success : Bool
  templateName : String
  message : String
  deriving Repr, DecidableEq

/-- `PDFOperations.delete_pdf_template`. -/
def delete_pdf_template (s : TemplateStore) (templateName : String) :
    TemplateStore × DeleteTemplateResult :=
  let r := delete_template s templateName
  (r.1,
   { success := r.2
     templateName := templateName
     message :=
       if r.2 then "Template \x27" ++ templateName ++ "\x27 deleted"
       else "Template \x27" ++ templateName ++ "\x27 not found" })

/-- Page-number resolution shared by the PDF methods: `-1` means the last
page, otherwise 1-indexed; out-of-range pages resolve to `none` (the loop
`continue`s). -/
def resolvePageIdx (numPages : Nat) (page : Int) : Option Nat :=
  let idx : Int := if page = -1 then (numPages : Int) - 1 else page - 1
  if 0 ≤ idx && idx < (numPages : Int) then some idx.toNat else none

/-- A primitive mutation `fill_from_template` performs on the open document:
text inserted at a point (PyMuPDF top-origin coordinates) or an image inserted
into a rectangle. -/
inductive PdfAction where
  | placeText (pageIdx : Nat) (x : ℚ) (yTop : ℚ) (fontSize : ℚ) (content : String)
  | placeImage (pageIdx : Nat) (rect : Rect)
  deriving Repr, DecidableEq

def PdfAction.isText : PdfAction → Bool
  | .placeText _ _ _ _ _ => true
  | .placeImage _ _ => false

def PdfAction.isImage : PdfAction → Bool
  | .placeText _ _ _ _ _ => false
  | .placeImage _ _ => true

/-- The action (if any) one template field contributes in the
`fill_from_template` loop.  `pageHeights` lists the height of each page of the
open document; `sigImage` is `some (w, h)` when a signature image file is
available (argument or configured default) with those pixel dimensions;
`todayStr` is the `datetime.now().strftime("%B %d, %Y")` string. -/
def templateFieldAction (pageHeights : List ℚ) (values : String → Option String)
    (sign : Bool) (sigImage : Option (ℚ × ℚ)) (todayStr : String)
    (f : TemplateField) : Option PdfAction :=
  match values f.fieldName with
  | none => none
  | some v0 =>
    let v := if f.type = "date" && v0.toLower = "auto" then todayStr else v0
    if f.type = "signature" then
      if sign then
        match sigImage with
        | none => none
        | some wh =>
          match resolvePageIdx pageHeights.length f.page with
          | none => none
          | some idx =>
            let pageH := pageHeights.getD idx 0
            let yTop := pageH - f.y
            let sigH := f.width * (wh.2 / wh.1)
            some (.placeImage idx
              { x0 := f.x, y0 := yTop - sigH, x1 := f.x + f.width, y1 := yTop })
      else none
    else
      match resolvePageIdx pageHeights.length f.page with
      | none => none
      | some idx =>
        let pageH := pageHeights.getD idx 0
        some (.placeText idx f.x (pageH - f.y) f.fontSize v)

structure FillFromTemplateResult where
  actions : List PdfAction
  fieldsFilled : Nat
  signatureAdded : Bool
  deriving Repr, DecidableEq

/-- `PDFOperations.fill_from_template`: `none` when the template does not
exist (the code raises `ValueError`); otherwise the loop over the template's
fields, emitting one action per applicable field, counting text fills and
whether a signature was placed. -/
def fill_from_template (pageHeights : List ℚ) (s : TemplateStore)
    (templateName : String) (values : String → Option String) (sign : Bool)
    (sigImage : Option (ℚ × ℚ)) (todayStr : String) :
    Option FillFromTemplateResult :=
  (load_template s templateName).map (fun tmpl =>
    let acts := tmpl.fields.filterMap
      (templateFieldAction pageHeights values sign sigImage todayStr)
    { actions := acts
      fieldsFilled := (acts.filter PdfAction.isText).length
      signatureAdded := acts.any PdfAction.isImage })

/-! ## Tool dispatch boundary (`server.py`, `call_tool`)

The host protocol hands over a tool name and a loosely-typed argument bag.
The dispatch shim validates required arguments, coerces typed arguments, calls
one backend method (`SparkDatabase` / `PDFOperations`, abstracted here as a
function from calls to fallible results), and serialises.  The whole body runs
inside `try/except Exception`, whose catch-all turns any raised error into an
`"Error: <message>"` text. -/

/-- A JSON-ish value of the host protocol's argument bag. -/
inductive JVal where
  | null
  | str (s : String)
  | num (n : Int)
  | fnum (q : ℚ)
  | bool (b : Bool)
  | arr (xs : List JVal)
  | obj (kvs : List (String × JVal))
  deriving Repr

/-- Python truthiness (`None`, `False`, `0`, `""`, `[]`, `{}` are falsy). -/
def JVal.truthy : JVal → Bool
  | .null => false
  | .str s => s ≠ ""
  | .num n => n != 0
  | .fnum q => q != 0
  | .bool b => b
  | .arr xs => !xs.isEmpty
  | .obj kvs => !kvs.isEmpty

/-- Decimal digit-string parsing (structural, used for the `int(...)`
coercion on string arguments). -/
def parseNatChars (cs : List Char) : Option Nat :=
  if cs.isEmpty then none
  else if cs.all Char.isDigit then
    some (cs.foldl (fun acc c => acc * 10 + (c.toNat - 48)) 0)
  else none

/-- Python `int(s)` on a decimal string literal. -/
def pyIntOfString (s : String) : Option Int :=
  match s.data with
  | '-' :: rest => (parseNatChars rest).map (fun n => -(n : Int))
  | cs => (parseNatChars cs).map (fun n => (n : Int))

/-- `int(x)` on an argument-bag value: numbers pass through, booleans map to
0/1, numeric strings are parsed, everything else raises (numeric JSON values
are modelled as integers). -/
def pyInt : JVal → Except String Int
  | .num n => .ok n
  | .bool b => .ok (if b then 1 else 0)
  | .str s =>
    match pyIntOfString s with
    | some n => .ok n
    | none => .error ("invalid literal for int() with base 10: " ++ s)
  | _ => .error "int() argument must be a string or a number"

/-- `float(x)` on an argument-bag value (numeric values modelled as integers,
embedded into `ℚ`). -/
def pyFloat : JVal → Except String ℚ
  | .num n => .ok (n : ℚ)
  | .bool b => .ok (if b then 1 else 0)
  | .str s =>
    match pyIntOfString s with
    | some n => .ok (n : ℚ)
    | none => .error ("could not convert string to float: " ++ s)
  | _ => .error "float() argument must be a string or a number"

/-- The argument bag (`arguments.get(k)` is `None` when the key is absent). -/
def ArgBag : Type := String → Option JVal

/-- `arguments.get(k)`. -/
def getArg (args : ArgBag) (k : String) : JVal := (args k).getD .null

/-- `arguments.get(k, default)`. -/
def getArgD (args : ArgBag) (k : String) (d : JVal) : JVal := (args k).getD d

/-- One invocation of a backend (`SparkDatabase` / `PDFOperations`) method:
method name plus the (already coerced) arguments handed over. -/
structure BCall where
  method : String
  callArgs : List JVal
  deriving Repr

/-- The effect of the `try:` body of `call_tool`: either an uncaught Python
exception (carrying its message) or a value, together with the list of backend
calls actually performed along the way. -/
def Eff (α : Type) : Type := Except String (α × List BCall)

def Eff.pureVal (a : α) : Eff α := .ok (a, [])

def Eff.bindE (x : Eff α) (f : α → Eff β) : Eff β :=
  match x with
  | .error e => .error e
  | .ok (a, l) =>
    match f a with
    | .error e => .error e
    | .ok (b, l2) => .ok (b, l ++ l2)

instance : Monad Eff where
  pure := Eff.pureVal
  bind := Eff.bindE

/-- The behaviour of the backend for this invocation: a method call either
raises (error) or returns a result, where `none` models a Python `None`
return and `some s` a JSON-serialisable payload rendered as `s`. -/
def Backend : Type := BCall → Except String (Option String)

/-- Perform one backend call, recording it. -/
def callB (backend : Backend) (c : BCall) : Eff (Option String) :=
  match backend c with
  | .error e => .error e
  | .ok v => .ok (v, [c])

/-- Lift a pure fallible computation (e.g. an `int(...)` coercion). -/
def liftE (r : Except String α) : Eff α :=
  match r with
  | .error e => .error e
  | .ok a => .ok (a, [])

/-- `json.dumps(result, indent=2)` of a backend payload (`None` → `"null"`). -/
def jdumpOpt : Option String → String
  | none => "null"
  | some s => s

/-- The `try:` body of `server.call_tool`: the name-dispatch chain.  Each
branch validates required arguments (returning plain error text), coerces
declared-typed arguments, performs its single backend call and serialises the
result. -/
def tryDispatch (backend : Backend) (name : String) (args : ArgBag) :
    Eff (List String) :=
  if name = "list_meeting_transcripts" then do
    let lim ← liftE (pyInt (getArgD args "limit" (.num 20)))
    let r ← callB backend ⟨"list_transcripts", [.num lim, .bool true]⟩
    pure [jdumpOpt r]
  else if name = "get_meeting_transcript" then
    let mpk := getArg args "messagePk"
    if mpk.truthy then do
      let n ← liftE (pyInt mpk)
      let r ← callB backend ⟨"get_transcript", [.num n]⟩
      match r with
      | none => pure ["Transcript not found"]
      | some v => pure [v]
    else pure ["Error: messagePk required"]
  else if name = "search_meeting_transcripts" then
    let q := getArg args "query"
    if q.truthy then do
      let lim ← liftE (pyInt (getArgD args "limit" (.num 10)))
      let r ← callB backend ⟨"search_transcripts", [q, .num lim]⟩
      pure [jdumpOpt r]
    else pure ["Error: query required"]
  else if name = "get_transcript_statistics" then do
    let r ← callB backend ⟨"get_statistics", []⟩
    pure [jdumpOpt r]
  else if name = "list_emails" then do
    let lim ← liftE (pyInt (getArgD args "limit" (.num 20)))
    let r ← callB backend
      ⟨"list_emails", [getArgD args "folder" (.str "inbox"), getArg args "sender", .num lim]⟩
    pure [jdumpOpt r]
  else if name = "search_emails" then
    let q := getArg args "query"
    if q.truthy then do
      let lim ← liftE (pyInt (getArgD args "limit" (.num 10)))
      let r ← callB backend ⟨"search_emails", [q, .num lim]⟩
      pure [jdumpOpt r]
    else pure ["Error: query required"]
  else if name = "get_email" then
    let mpk := getArg args "messagePk"
    if mpk.truthy then do
      let n ← liftE (pyInt mpk)
      let r ← callB backend ⟨"get_email", [.num n]⟩
      match r with
      | none => pure ["Email not found"]
      | some v => pure [v]
    else pure ["Error: messagePk required"]
  else if name = "find_action_items" then do
    let d ← liftE (pyInt (getArgD args "days" (.num 7)))
    let lim ← liftE (pyInt (getArgD args "limit" (.num 20)))
    let r ← callB backend ⟨"find_action_items", [.num d, .num lim]⟩
    pure [jdumpOpt r]
  else if name = "find_pending_responses" then do
    let d ← liftE (pyInt (getArgD args "days" (.num 7)))
    let lim ← liftE (pyInt (getArgD args "limit" (.num 20)))
    let r ← callB backend ⟨"find_pending_responses", [.num d, .num lim]⟩
    pure [jdumpOpt r]
  else if name = "list_events" then do
    let d ← liftE (pyInt (getArgD args "daysAhead" (.num 1)))
    let lim ← liftE (pyInt (getArgD args "limit" (.num 20)))
    let r ← callB backend ⟨"list_events", [.num d, .num lim]⟩
    pure [jdumpOpt r]
  else if name = "get_event_details" then
    let epk := getArg args "eventPk"
    if epk.truthy then do
      let n ← liftE (pyInt epk)
      let r ← callB backend ⟨"get_event_details", [.num n]⟩
      match r with
      | none => pure ["Event not found"]
      | some v => pure [v]
    else pure ["Error: eventPk required"]
  else if name = "find_events_needing_prep" then do
    let h ← liftE (pyInt (getArgD args "hoursAhead" (.num 24)))
    let lim ← liftE (pyInt (getArgD args "limit" (.num 20)))
    let r ← callB backend ⟨"find_events_needing_prep", [.num h, .num lim]⟩
    pure [jdumpOpt r]
  else if name = "get_daily_briefing" then do
    let r ← callB backend ⟨"get_daily_briefing", []⟩
    pure [jdumpOpt r]
  else if name = "find_context_for_meeting" then
    let epk := getArg args "eventPk"
    if epk.truthy then do
      let n ← liftE (pyInt epk)
      let d ← liftE (pyInt (getArgD args "daysBack" (.num 30)))
      let r ← callB backend ⟨"find_context_for_meeting", [.num n, .num d]⟩
      pure [jdumpOpt r]
    else pure ["Error: eventPk required"]
  else if name = "list_attachments" then
    let mpk := getArg args "messagePk"
    if mpk.truthy then do
      let n ← liftE (pyInt mpk)
      let r ← callB backend ⟨"list_attachments", [.num n]⟩
      pure [jdumpOpt r]
    else pure ["Error: messagePk required"]
  else if name = "get_attachment" then
    let mpk := getArg args "messagePk"
    if mpk.truthy then do
      let n ← liftE (pyInt mpk)
      let idx ← liftE (pyInt (getArgD args "attachmentIndex" (.num 0)))
      let r ← callB backend
        ⟨"get_attachment", [.num n, .num idx, getArgD args "extractText" (.bool true)]⟩
      match r with
      | none => pure ["Attachment not found"]
      | some v => pure [v]
    else pure ["Error: messagePk required"]
  else if name = "search_attachments" then do
    let lim ← liftE (pyInt (getArgD args "limit" (.num 20)))
    let r ← callB backend
      ⟨"search_attachments", [getArg args "filename", getArg args "mimeType", .num lim]⟩
    pure [jdumpOpt r]
  else if name = "get_pdf_form_fields" then
    let fp := getArg args "filePath"
    if fp.truthy then do
      let r ← callB backend ⟨"get_form_fields", [fp]⟩
      pure [jdumpOpt r]
    else pure ["Error: filePath required"]
  else if name = "fill_pdf_form" then
    let fp := getArg args "filePath"
    let fields := getArg args "fields"
    let checkboxes := getArg args "checkboxes"
    if fp.truthy then
      if !fields.truthy && !checkboxes.truthy then
        pure ["Error: fields or checkboxes required"]
      else do
        let r ← callB backend
          ⟨"fill_form", [fp, fields, checkboxes, getArg args "outputPath",
            getArgD args "flatten" (.bool false)]⟩
        pure [jdumpOpt r]
    else pure ["Error: filePath required"]
  else if name = "sign_pdf" then
    let fp := getArg args "filePath"
    if fp.truthy then do
      let pg ← liftE (pyInt (getArgD args "page" (.num (-1))))
      let w ← liftE (pyFloat (getArgD args "width" (.num 150)))
      let r ← callB backend
        ⟨"add_signature", [fp, getArg args "signatureImagePath", .num pg,
          getArg args "x", getArg args "y", .fnum w,
          getArg args "outputPath"]⟩
      pure [jdumpOpt r]
    else pure ["Error: filePath required"]
  else if name = "fill_and_sign_pdf" then
    let fp := getArg args "filePath"
    if fp.truthy then do
      let pg ← liftE (pyInt (getArgD args "page" (.num (-1))))
      let w ← liftE (pyFloat (getArgD args "width" (.num 150)))
      let r ← callB backend
        ⟨"fill_and_sign", [fp, getArg args "signatureImagePath",
          getArg args "fields", getArg args "checkboxes", .num pg,
          getArg args "x", getArg args "y", getArg args "yFromTop",
          .fnum w, getArg args "outputPath",
          getArgD args "flatten" (.bool false), getArg args "signatureField",
          getArg args "textAnnotations"]⟩
      pure [jdumpOpt r]
    else pure ["Error: filePath required"]
  else if name = "annotate_pdf" then
    let fp := getArg args "filePath"
    let annos := getArg args "annotations"
    if fp.truthy then
      if annos.truthy then do
        let r ← callB backend
          ⟨"annotate_pdf", [fp, annos, getArg args "outputPath",
            getArgD args "flatten" (.bool false)]⟩
        pure [jdumpOpt r]
      else pure ["Error: annotations required"]
    else pure ["Error: filePath required"]
  else if name = "get_pdf_layout" then
    let fp := getArg args "filePath"
    if fp.truthy then do
      let r ← callB backend
        ⟨"get_pdf_layout", [fp, getArg args "page",
          getArgD args "detectBlankLines" (.bool true)]⟩
      pure [jdumpOpt r]
    else pure ["Error: filePath required"]
  else if name = "save_pdf_template" then
    let tn := getArg args "templateName"
    let fields := getArg args "fields"
    if tn.truthy then
      if fields.truthy then do
        let r ← callB backend
          ⟨"save_pdf_template", [tn, fields, getArg args "description"]⟩
        pure [jdumpOpt r]
      else pure ["Error: fields required"]
    else pure ["Error: templateName required"]
  else if name = "list_pdf_templates" then do
    let r ← callB backend ⟨"list_pdf_templates", []⟩
    pure [jdumpOpt r]
  else if name = "delete_pdf_template" then
    let tn := getArg args "templateName"
    if tn.truthy then do
      let r ← callB backend ⟨"delete_pdf_template", [tn]⟩
      pure [jdumpOpt r]
    else pure ["Error: templateName required"]
  else if name = "fill_from_template" then
    let fp := getArg args "filePath"
    let tn := getArg args "templateName"
    let vals := getArg args "values"
    if fp.truthy then
      if tn.truthy then
        if vals.truthy then do
          let r ← callB backend
            ⟨"fill_from_template", [fp, tn, vals,
              getArgD args "sign" (.bool false),
              getArg args "signatureImagePath", getArg args "outputPath"]⟩
          pure [jdumpOpt r]
        else pure ["Error: values required"]
      else pure ["Error: templateName required"]
    else pure ["Error: filePath required"]
  else
    pure ["Unknown tool: " ++ name]

/-- `server.call_tool`: the `try:` body wrapped in the catch-all that converts
any uncaught exception into an `"Error: <message>"` text response. -/
def call_tool (backend : Backend) (name : String) (args : ArgBag) : List String :=
  match tryDispatch backend name args with
  | .ok (msgs, _) => msgs
  | .error e => ["Error: " ++ e]

/-- A result of the `try:` body is a single text response whenever it
completes without raising. -/
def SingleOk (m : Eff (List String)) : Prop :=
  ∀ msgs log, m = Except.ok (msgs, log) → ∃ s, msgs = [s]

/-- One required-argument validation performed by a dispatch branch: for tool
`tool`, once the arguments named in `priors` have passed their own checks, a
falsy argument `argName` makes the branch return the plain
`"Error: <argName> required"` text. -/
structure ReqArgCheck where
  tool : String
  priors : List String
  argName : String

/-- The required-argument validations of `server.call_tool`, in source order
within each branch. -/
def requiredArgChecks : List ReqArgCheck :=
  [⟨"get_meeting_transcript", [], "messagePk"⟩,
   ⟨"search_meeting_transcripts", [], "query"⟩,
   ⟨"search_emails", [], "query"⟩,
   ⟨"get_email", [], "messagePk"⟩,
   ⟨"get_event_details", [], "eventPk"⟩,
   ⟨"find_context_for_meeting", [], "eventPk"⟩,
   ⟨"list_attachments", [], "messagePk"⟩,
   ⟨"get_attachment", [], "messagePk"⟩,
   ⟨"get_pdf_form_fields", [], "filePath"⟩,
   ⟨"fill_pdf_form", [], "filePath"⟩,
   ⟨"sign_pdf", [], "filePath"⟩,
   ⟨"fill_and_sign_pdf", [], "filePath"⟩,
   ⟨"annotate_pdf", [], "filePath"⟩,
   ⟨"annotate_pdf", ["filePath"], "annotations"⟩,
   ⟨"get_pdf_layout", [], "filePath"⟩,
   ⟨"save_pdf_template", [], "templateName"⟩,
   ⟨"save_pdf_template", ["templateName"], "fields"⟩,
   ⟨"delete_pdf_template", [], "templateName"⟩,
   ⟨"fill_from_template", [], "filePath"⟩,
   ⟨"fill_from_template", ["filePath"], "templateName"⟩,
   ⟨"fill_from_template", ["filePath", "templateName"], "values"⟩]

/-! ## Concrete fixtures used by witnesses and counterexamples -/

/-- A backend whose every method returns Python `None` (fixture). -/
def backendNullFx : Backend := fun _ => Except.ok none

/-- An empty argument bag (fixture). -/
def argsEmptyFx : ArgBag := fun _ => none

/-- An argument bag whose `limit` is a non-numeric string, making the
`int(...)` coercion raise (fixture). -/
def argsBadLimitFx : ArgBag := fun k =>
  if k = "limit" then some (.str "x") else none

/-- Three unmarked messages matching three FTS hits (fixtures for C10). -/
def msgInvAFx : Message :=
  { pk := 21, subject := some "invoice a", messageFrom := some "a@mail",
    messageTo := some "me@mail", receivedDate := 300, inInbox := 1,
    inSent := 0, inDrafts := 0, unseen := 0, starred := 0, conversationPk := 31,
    numberOfFileAttachments := 0, meta := none, metaMtid := none,
    metaMtskp := none, metaMtes := none, metaMtsd := none, metaMted := none }

def msgInvBFx : Message :=
  { msgInvAFx with pk := 22, subject := some "invoice b", receivedDate := 301 }

def msgInvCFx : Message :=
  { msgInvAFx with pk := 23, subject := some "invoice c", receivedDate := 302 }

def storeInvFx : List Message := [msgInvAFx, msgInvBFx, msgInvCFx]

def ftsTripleFx : List FtsHit :=
  [{ messagePk := 21, excerpt := "inv a", rank := -3 },
   { messagePk := 22, excerpt := "inv b", rank := -2 },
   { messagePk := 23, excerpt := "inv c", rank := -1 }]

/-- A transcript-marked kept message (fixture). -/
def msgTranscriptFx : Message :=
  { pk := 1, subject := some "weekly sync", messageFrom := some "bot@mail",
    messageTo := some "me@mail", receivedDate := 100, inInbox := 0, inSent := 0,
    inDrafts := 0, unseen := 0, starred := 0, conversationPk := 11,
    numberOfFileAttachments := 0, meta := some "x mtid x",
    metaMtid := some "t1", metaMtskp := some 1, metaMtes := none,
    metaMtsd := none, metaMted := none }

/-- An ordinary email message (fixture). -/
def msgEmailFx : Message :=
  { pk := 2, subject := some "hello", messageFrom := some "alice@mail",
    messageTo := some "me@mail", receivedDate := 200, inInbox := 1, inSent := 0,
    inDrafts := 0, unseen := 1, starred := 0, conversationPk := 12,
    numberOfFileAttachments := 0, meta := none, metaMtid := none,
    metaMtskp := none, metaMtes := none, metaMtsd := none, metaMted := none }

/-- A two-message store containing one transcript and one email (fixture). -/
def storeFx : List Message := [msgTranscriptFx, msgEmailFx]

/-- One FTS hit on the email message of `storeFx` (fixture). -/
def ftsHitEmailFx : FtsHit := { messagePk := 2, excerpt := "…hello…", rank := -3 }

/-- Two plain events inside the default one-day window (fixture). -/
def evPageAFx : CalEvent :=
  { pk := 1, summary := some "standup", descriptionProperty := none,
    dstart := 100, dend := 700, location := none, locationTitle := none,
    allDay := 0, status := 0, conferenceInfo := none }

def evPageBFx : CalEvent :=
  { pk := 2, summary := some "review", descriptionProperty := none,
    dstart := 200, dend := 800, location := none, locationTitle := none,
    allDay := 0, status := 0, conferenceInfo := none }

def calPairFx : List CalEvent := [evPageAFx, evPageBFx]

/-- An FTS hit whose message does not exist in the transactional store
(fixture for the dropped-candidate behaviour). -/
def ftsHitGhostFx : FtsHit := { messagePk := 7, excerpt := "ghost", rank := -5 }

/-- A transcript-marked inbox message with no reply (fixture for C4). -/
def msgPendingMtidFx : Message :=
  { pk := 3, subject := some "call notes", messageFrom := some "bot@mail",
    messageTo := some "me@mail", receivedDate := 1000, inInbox := 1,
    inSent := 0, inDrafts := 0, unseen := 1, starred := 0, conversationPk := 5,
    numberOfFileAttachments := 0, meta := some "a mtid b",
    metaMtid := some "t3", metaMtskp := some 1, metaMtes := none,
    metaMtsd := none, metaMted := none }

/-- An unmarked inbox message with no reply (fixture for C4's witness). -/
def msgPendingOkFx : Message :=
  { pk := 4, subject := some "question", messageFrom := some "alice@mail",
    messageTo := some "me@mail", receivedDate := 1000, inInbox := 1,
    inSent := 0, inDrafts := 0, unseen := 1, starred := 0, conversationPk := 6,
    numberOfFileAttachments := 0, meta := none, metaMtid := none,
    metaMtskp := none, metaMtes := none, metaMtsd := none, metaMted := none }

/-- A 10-minute event with no conference link (fixture for C5, included case
when it has two attendees). -/
def evPrepIncFx : CalEvent :=
  { pk := 9, summary := some "1:1 pair", descriptionProperty := none,
    dstart := 100, dend := 700, location := none, locationTitle := none,
    allDay := 0, status := 0, conferenceInfo := none }

def attsTwoFx : List Attendee :=
  [{ refEventPK := 9, name := some "a", email := some "a@x", partStat := 0, role := 0 },
   { refEventPK := 9, name := some "b", email := some "b@x", partStat := 0, role := 0 }]

/-- A 10-minute single-attendee event with no conference link (fixture for C5,
excluded case). -/
def evPrepExcFx : CalEvent :=
  { pk := 10, summary := some "focus block", descriptionProperty := none,
    dstart := 100, dend := 700, location := none, locationTitle := none,
    allDay := 0, status := 0, conferenceInfo := none }

def attsOneFx : List Attendee :=
  [{ refEventPK := 10, name := some "a", email := some "a@x", partStat := 0, role := 0 }]

/-- A single text-field template placement (fixture for C7). -/
def tmplFieldFx : TemplateField :=
  { fieldName := "name", page := 1, x := 72, y := 120, fontSize := 12,
    type := "text", width := 150 }

/-- A value map supplying the one non-signature field (fixture for C7). -/
def tmplValuesFx : String → Option String := fun k =>
  if k = "name" then some "Alice Smith" else none

/-- A one-entry template store (fixture for C8). -/
def tmplStoreFx : TemplateStore :=
  [("a", { name := "a", description := "", fields := [] })]

/-! ## Helper lemmas about the query building blocks -/

theorem mem_insertOrdered {le : α → α → Bool} {a x : α} {l : List α} :
    x ∈ insertOrdered le a l ↔ x = a ∨ x ∈ l := by
  induction l with
  | nil => simp [insertOrdered]
  | cons b l ih =>
    simp only [insertOrdered]
    split
    · simp
    · simp only [List.mem_cons, ih]
      tauto

theorem length_insertOrdered {le : α → α → Bool} (a : α) (l : List α) :
    (insertOrdered le a l).length = l.length + 1 := by
  induction l with
  | nil => rfl
  | cons b l ih =>
    simp only [insertOrdered]
    split
    · simp
    · simp [ih]

theorem mem_sqlOrderBy {le : α → α → Bool} {x : α} {l : List α} :
    x ∈ sqlOrderBy le l ↔ x ∈ l := by
  induction l with
  | nil => simp [sqlOrderBy]
  | cons b l ih =>
    simp only [sqlOrderBy, List.foldr_cons] at *
    rw [mem_insertOrdered, ih]
    simp

theorem length_sqlOrderBy (le : α → α → Bool) (l : List α) :
    (sqlOrderBy le l).length = l.length := by
  induction l with
  | nil => rfl
  | cons b l ih =>
    simp only [sqlOrderBy, List.foldr_cons] at *
    rw [length_insertOrdered, ih]
    rfl

theorem mem_sortByRecvDesc {l : List Message} {m : Message} :
    m ∈ sortByRecvDesc l ↔ m ∈ l :=
  mem_sqlOrderBy

theorem length_sortByRecvDesc (l : List Message) :
    (sortByRecvDesc l).length = l.length :=
  length_sqlOrderBy _ l

theorem mem_sortByRank {l : List FtsHit} {h : FtsHit} :
    h ∈ sortByRank l ↔ h ∈ l :=
  mem_sqlOrderBy

theorem length_sortByRank (l : List FtsHit) : (sortByRank l).length = l.length :=
  length_sqlOrderBy _ l

theorem mem_sortByDstart {l : List CalEvent} {e : CalEvent} :
    e ∈ sortByDstart l ↔ e ∈ l :=
  mem_sqlOrderBy

theorem length_sortByDstart (l : List CalEvent) :
    (sortByDstart l).length = l.length :=
  length_sqlOrderBy _ l

theorem sqlPage_sublist (l : List α) (n o : Nat) :
    List.Sublist (sqlPage l n o) l :=
  (List.take_sublist n (l.drop o)).trans (List.drop_sublist o l)

theorem sqlPage_of_le (l : List α) (n : Nat) (h : l.length ≤ n) :
    sqlPage l n 0 = l := by
  simp [sqlPage, List.take_of_length_le h]

theorem metaNotLike_eq (o : Option String) :
    metaNotLikeMtidOrNull o = !(metaLikeMtid o) := by
  cases o <;> rfl

/-- `transcriptFilter` requires the transcript marker. -/
theorem transcriptFilter_mtid {ok iah : Bool} {st et : Option Int} {m : Message}
    (h : transcriptFilter ok st et iah m = true) : metaLikeMtid m.meta = true := by
  simp only [transcriptFilter, Bool.and_eq_true] at h
  exact h.1.1.1

/-- `emailFilter` rejects transcript-marked messages. -/
theorem emailFilter_no_mtid {folder : String} {uo : Bool} {st et : Option Int}
    {sender : Option String} {m : Message}
    (h : emailFilter folder uo st et sender m = true) :
    metaLikeMtid m.meta = false := by
  simp only [emailFilter, Bool.and_eq_true] at h
  have h1 := h.1.1.1.1
  rw [metaNotLike_eq] at h1
  simpa using h1

/-- Rows on the returned page come from the store and satisfy the WHERE
predicate. -/
theorem mem_page_imp {store : List Message} {pred : Message → Bool}
    {limit offset : Nat} {r : Message}
    (h : r ∈ sqlPage (sortByRecvDesc (store.filter pred)) limit offset) :
    r ∈ store ∧ pred r = true :=
  List.mem_filter.mp (mem_sortByRecvDesc.mp ((sqlPage_sublist _ _ _).mem h))

/-- With offset 0 and a limit at least the matching count, every matching row
is on the returned page. -/
theorem mem_page_of {store : List Message} {pred : Message → Bool} {limit : Nat}
    {m : Message} (hm : m ∈ store) (hp : pred m = true)
    (hlen : (store.filter pred).length ≤ limit) :
    m ∈ sqlPage (sortByRecvDesc (store.filter pred)) limit 0 := by
  rw [sqlPage_of_le]
  · exact mem_sortByRecvDesc.mpr (List.mem_filter.mpr ⟨hm, hp⟩)
  · rw [length_sortByRecvDesc]
    exact hlen

theorem rowDictLookup_eq_some {rows : List Message} {pk : Int} {row : Message}
    (h : rowDictLookup rows pk = some row) : row ∈ rows ∧ row.pk = pk := by
  refine ⟨List.mem_reverse.mp (List.mem_of_find?_eq_some h), ?_⟩
  have h2 := List.find?_some h
  simpa using h2

theorem rowDictLookup_isSome {rows : List Message} {pk : Int}
    (h : ∃ row ∈ rows, row.pk = pk) :
    ∃ row, rowDictLookup rows pk = some row := by
  rw [← Option.isSome_iff_exists]
  rw [rowDictLookup, List.find?_isSome]
  obtain ⟨row, hrow, hpk⟩ := h
  exact ⟨row, List.mem_reverse.mpr hrow, by simpa using hpk⟩

/-- Emitted elements of a `filterMap` whose produced values agree with a
projection form a sublist of the driving list under that projection. -/
theorem map_filterMap_sublist {α β γ : Type} (g : α → Option β) (f : β → γ)
    (fa : α → γ) (l : List α) (h : ∀ a b, g a = some b → f b = fa a) :
    List.Sublist ((l.filterMap g).map f) (l.map fa) := by
  induction l with
  | nil => simp
  | cons x xs ih =>
    cases hx : g x with
    | none =>
      simp only [List.filterMap_cons, hx, List.map_cons]
      exact List.Sublist.cons _ ih
    | some b =>
      simp only [List.filterMap_cons, hx, List.map_cons, h x b hx]
      exact List.Sublist.cons₂ _ ih

/-! ## Claim theorems -/

/-- Claim C1 (transcript/email partition): every message emitted by
`list_transcripts` carries the transcript marker (`meta LIKE '%mtid%'`), and —
with the optional filters off, offset 0 and a limit covering the store — every
marked message appears; dually, `list_emails` and `search_emails` only ever
emit unmarked messages, every unmarked message appears in an unfiltered
`list_emails` page covering the store, and every full-text candidate whose
store row is unmarked appears in `search_emails` when the hit list fits the
limit. -/
theorem transcript_email_partition
    (store : List Message) (search : List SearchEntry) (ftsAll : List FtsHit)
    (startTs endTs : Option Int) (includeAdHoc onlyKept : Bool)
    (folder : String) (unreadOnly : Bool) (sender : Option String)
    (limit offset : Nat) (m : Message) (h : FtsHit) :
    (∀ item ∈ (list_transcripts store search startTs endTs includeAdHoc
        onlyKept limit offset).transcripts,
      ∃ msg ∈ store, msg.pk = item.messagePk ∧ metaLikeMtid msg.meta = true) ∧
    (m ∈ store → metaLikeMtid m.meta = true → store.length ≤ limit →
      ∃ item ∈ (list_transcripts store search none none true false
          limit 0).transcripts, item.messagePk = m.pk) ∧
    (∀ item ∈ (list_emails store folder unreadOnly startTs endTs sender
        limit offset).emails,
      ∃ msg ∈ store, msg.pk = item.messagePk ∧ metaLikeMtid msg.meta = false) ∧
    (m ∈ store → metaLikeMtid m.meta = false → store.length ≤ limit →
      ∃ item ∈ (list_emails store "all" false none none none limit 0).emails,
        item.messagePk = m.pk) ∧
    (∀ r ∈ (search_emails store ftsAll startTs endTs limit).results,
      ∃ msg ∈ store, msg.pk = r.messagePk ∧ metaLikeMtid msg.meta = false) ∧
    (h ∈ ftsAll → ftsAll.length ≤ limit →
      (∃ msg ∈ store, msg.pk = h.messagePk ∧ metaLikeMtid msg.meta = false) →
      ∃ r ∈ (search_emails store ftsAll none none limit).results,
        r.messagePk = h.messagePk) := by
  refine ⟨?_, ?_, ?_, ?_, ?_, ?_⟩
  · intro item hitem
    simp only [list_transcripts, List.mem_map] at hitem
    obtain ⟨r, hr, hproj⟩ := hitem
    obtain ⟨hrs, hpred⟩ := mem_page_imp hr
    subst hproj
    exact ⟨r, hrs, rfl, transcriptFilter_mtid hpred⟩
  · intro hm hmt hlen
    have hp : transcriptFilter false none none true m = true := by
      simp [transcriptFilter, recvDateFilter, hmt]
    have hfl : (store.filter (transcriptFilter false none none true)).length ≤ limit :=
      le_trans (List.length_filter_le _ _) hlen
    have hpage := mem_page_of hm hp hfl
    simp only [list_transcripts, List.mem_map]
    exact ⟨_, ⟨m, hpage, rfl⟩, rfl⟩
  · intro item hitem
    simp only [list_emails, List.mem_map] at hitem
    obtain ⟨r, hr, hproj⟩ := hitem
    obtain ⟨hrs, hpred⟩ := mem_page_imp hr
    subst hproj
    exact ⟨r, hrs, rfl, emailFilter_no_mtid hpred⟩
  · intro hm hmt hlen
    have hp : emailFilter "all" false none none none m = true := by
      simp [emailFilter, recvDateFilter, metaNotLike_eq, hmt]
    have hfl : (store.filter (emailFilter "all" false none none none)).length ≤ limit :=
      le_trans (List.length_filter_le _ _) hlen
    have hpage := mem_page_of hm hp hfl
    simp only [list_emails, List.mem_map]
    exact ⟨_, ⟨m, hpage, rfl⟩, rfl⟩
  · intro r hr
    by_cases hE : (ftsRowsFor ftsAll (limit * 2)).isEmpty
    · simp [search_emails, hE] at hr
    · simp only [search_emails, hE, if_false, Bool.false_eq_true] at hr
      have hr2 := (List.take_sublist _ _).mem hr
      obtain ⟨hhit, hhmem, hg⟩ := List.mem_filterMap.mp hr2
      obtain ⟨row, hlook, hemit⟩ := Option.map_eq_some'.mp hg
      obtain ⟨hrowmem, hrowpk⟩ := rowDictLookup_eq_some hlook
      obtain ⟨hrowstore, hrowpred⟩ := List.mem_filter.mp hrowmem
      simp only [searchEmailsMetaPred, Bool.and_eq_true] at hrowpred
      have hnm := hrowpred.1.2
      rw [metaNotLike_eq] at hnm
      refine ⟨row, hrowstore, ?_, by simpa using hnm⟩
      rw [hrowpk, ← hemit]
  · intro hh hlen hex
    have hlenSorted : (sortByRank ftsAll).length ≤ limit * 2 := by
      rw [length_sortByRank]
      omega
    have hrowsEq : ftsRowsFor ftsAll (limit * 2) = sortByRank ftsAll := by
      rw [ftsRowsFor, List.take_of_length_le hlenSorted]
    have hhR : h ∈ ftsRowsFor ftsAll (limit * 2) := by
      rw [hrowsEq]
      exact mem_sortByRank.mpr hh
    have hE : (ftsRowsFor ftsAll (limit * 2)).isEmpty = false := by
      cases hEE : (ftsRowsFor ftsAll (limit * 2)).isEmpty
      · rfl
      · rw [List.isEmpty_iff] at hEE
        rw [hEE] at hhR
        cases hhR
    obtain ⟨msg, hmsg, hmpk, hmt⟩ := hex
    have hpks : (ftsRowsFor ftsAll (limit * 2)).map (fun x => x.messagePk)
        |>.contains msg.pk := by
      simp only [List.contains_iff_exists_mem_beq, List.mem_map]
      exact ⟨h.messagePk, ⟨h, hhR, rfl⟩, by simp [hmpk]⟩
    have hmpred : searchEmailsMetaPred
        ((ftsRowsFor ftsAll (limit * 2)).map (fun x => x.messagePk)) none none msg
        = true := by
      simp only [searchEmailsMetaPred, Bool.and_eq_true]
      refine ⟨⟨hpks, ?_⟩, by rfl⟩
      rw [metaNotLike_eq, hmt]
      rfl
    obtain ⟨row, hlook⟩ :=
      @rowDictLookup_isSome
        (store.filter (searchEmailsMetaPred
          ((ftsRowsFor ftsAll (limit * 2)).map (fun x => x.messagePk)) none none))
        h.messagePk
        ⟨msg, List.mem_filter.mpr ⟨hmsg, hmpred⟩, hmpk⟩
    simp only [search_emails, hE, if_false, Bool.false_eq_true]
    have hglen : ((ftsRowsFor ftsAll (limit * 2)).filterMap (fun hh0 =>
        (rowDictLookup (store.filter (searchEmailsMetaPred
          ((ftsRowsFor ftsAll (limit * 2)).map (fun x => x.messagePk)) none none))
          hh0.messagePk).map (fun meta =>
          ({ messagePk := hh0.messagePk
             subject := pyOrStr meta.subject "(No Subject)"
             sender := pyOrStr meta.messageFrom "Unknown"
             receivedDate := meta.receivedDate
             excerpt := pyOrStr (some hh0.excerpt) ""
             relevanceScore := -hh0.rank } : SearchItem)))).length ≤ limit := by
      refine le_trans (List.length_filterMap_le _ _) ?_
      rw [hrowsEq, length_sortByRank]
      exact hlen
    rw [List.take_of_length_le hglen]
    refine ⟨({ messagePk := h.messagePk
               subject := pyOrStr row.subject "(No Subject)"
               sender := pyOrStr row.messageFrom "Unknown"
               receivedDate := row.receivedDate
               excerpt := pyOrStr (some h.excerpt) ""
               relevanceScore := -h.rank } : SearchItem),
      List.mem_filterMap.mpr ⟨h, hhR, ?_⟩, rfl⟩
    rw [hlook]
    rfl

/-- Witness for C1 on a concrete two-message store: the transcript-marked
message shows up in `list_transcripts`, the unmarked one in `list_emails`, and
the unmarked full-text hit in `search_emails`. -/
theorem transcript_email_partition_witness :
    (∃ item ∈ (list_transcripts storeFx [] none none true false
        10 0).transcripts, item.messagePk = 1) ∧
    (∃ item ∈ (list_emails storeFx "all" false none none none 10 0).emails,
      item.messagePk = 2) ∧
    (∃ r ∈ (search_emails storeFx [ftsHitEmailFx] none none 10).results,
      r.messagePk = 2) := by
  refine ⟨?_, ?_, ?_⟩
  · refine (transcript_email_partition storeFx [] [] none none true false "all"
      false none 10 0 msgTranscriptFx ftsHitEmailFx).2.1 ?_ ?_ ?_
    · decide
    · decide
    · decide
  · refine (transcript_email_partition storeFx [] [] none none true false "all"
      false none 10 0 msgEmailFx ftsHitEmailFx).2.2.2.1 ?_ ?_ ?_
    · decide
    · decide
    · decide
  · refine (transcript_email_partition storeFx [] [ftsHitEmailFx] none none
      true false "all" false none 10 0 msgEmailFx ftsHitEmailFx).2.2.2.2.2
      ?_ ?_ ?_
    · decide
    · decide
    · exact ⟨msgEmailFx, by decide, by decide, by decide⟩

/-- Claim C2, counterexample: `list_events` does not report a page-invariant
filtered total.  On a store of two events inside the requested window, the
total reported with limit 1 is 1 while the matching count (and the total
reported with limit 2) is 2 — `total` is just the page length. -/
theorem pagination_invariant_total_cex :
    (list_events calPairFx none none 0 1 1).total = 1 ∧
    (list_events calPairFx none none 0 1 2).total = 2 ∧
    (calPairFx.filter (eventWindow 0 86400)).length = 2 := by
  refine ⟨by decide, by decide, by decide⟩

/-- Claim C2, amended: `list_emails` and `list_transcripts` return at most
`limit` items and report a total equal to the full filtered count, invariant
under limit and offset; `list_events` also returns at most `limit` items but
reports as `total` merely the length of the returned page. -/
theorem pagination_totals (store : List Message) (search : List SearchEntry)
    (folder : String) (uo : Bool) (sd ed : Option Int) (sender : Option String)
    (iah ok : Bool) (cal : List CalEvent) (sdO edO : Option Int)
    (dS da : Int) (L1 O1 L2 O2 : Nat) :
    ((list_emails store folder uo sd ed sender L1 O1).emails.length ≤ L1 ∧
     (list_emails store folder uo sd ed sender L1 O1).total =
       (list_emails store folder uo sd ed sender L2 O2).total ∧
     (list_emails store folder uo sd ed sender L1 O1).total =
       (store.filter (emailFilter folder uo sd ed sender)).length) ∧
    ((list_transcripts store search sd ed iah ok L1 O1).transcripts.length ≤ L1 ∧
     (list_transcripts store search sd ed iah ok L1 O1).total =
       (list_transcripts store search sd ed iah ok L2 O2).total ∧
     (list_transcripts store search sd ed iah ok L1 O1).total =
       (store.filter (transcriptFilter ok sd ed iah)).length) ∧
    ((list_events cal sdO edO dS da L1).events.length ≤ L1 ∧
     (list_events cal sdO edO dS da L1).total =
       (list_events cal sdO edO dS da L1).events.length) := by
  refine ⟨⟨?_, rfl, rfl⟩, ⟨?_, rfl, rfl⟩, ⟨?_, rfl⟩⟩
  · simp only [list_emails, List.length_map, sqlPage, List.length_take]
    exact min_le_left _ _
  · simp only [list_transcripts, List.length_map, sqlPage, List.length_take]
    exact min_le_left _ _
  · simp only [list_events, List.length_map, List.length_take]
    exact min_le_left _ _

/-- The results list computed by `search_emails`, with the empty-hit early
return folded into the general expression. -/
theorem search_emails_results_eq (store : List Message) (ftsAll : List FtsHit)
    (sd ed : Option Int) (limit : Nat) :
    (search_emails store ftsAll sd ed limit).results =
      ((ftsRowsFor ftsAll (limit * 2)).filterMap (fun a =>
        (rowDictLookup (store.filter (searchEmailsMetaPred
          ((ftsRowsFor ftsAll (limit * 2)).map (fun x => x.messagePk)) sd ed))
          a.messagePk).map (fun meta =>
          ({ messagePk := a.messagePk
             subject := pyOrStr meta.subject "(No Subject)"
             sender := pyOrStr meta.messageFrom "Unknown"
             receivedDate := meta.receivedDate
             excerpt := pyOrStr (some a.excerpt) ""
             relevanceScore := -a.rank } : SearchItem)))).take limit := by
  by_cases hE : (ftsRowsFor ftsAll (limit * 2)).isEmpty
  · rw [List.isEmpty_iff] at hE
    simp [search_emails, hE]
  · simp only [Bool.not_eq_true] at hE
    simp [search_emails, hE]

/-- The results list computed by `search_transcripts`, with the empty-hit
early return folded into the general expression. -/
theorem search_transcripts_results_eq (store : List Message)
    (ftsAll : List FtsHit) (sd ed : Option Int) (limit : Nat) :
    (search_transcripts store ftsAll sd ed limit).results =
      ((ftsRowsFor ftsAll (limit * 2)).filterMap (fun a =>
        (rowDictLookup (store.filter (searchTranscriptsMetaPred
          ((ftsRowsFor ftsAll (limit * 2)).map (fun x => x.messagePk)) sd ed))
          a.messagePk).map (fun meta =>
          ({ messagePk := a.messagePk
             subject := pyOrStr meta.subject "Untitled"
             sender := pyOrStr meta.messageFrom "Unknown"
             receivedDate := meta.receivedDate
             excerpt := pyOrStr (some a.excerpt) ""
             relevanceScore := -a.rank } : SearchItem)))).take limit := by
  by_cases hE : (ftsRowsFor ftsAll (limit * 2)).isEmpty
  · rw [List.isEmpty_iff] at hE
    simp [search_transcripts, hE]
  · simp only [Bool.not_eq_true] at hE
    simp [search_transcripts, hE]

/-- Soundness of the generic search-join shape: every emitted result is backed
by a store row matching the metadata predicate, and the emitted key sequence
is a sublist of the driving hit key sequence. -/
theorem searchShape_sound (store : List Message) (metaPred : Message → Bool)
    (ftsRows : List FtsHit) (limit : Nat) (emit : FtsHit → Message → SearchItem)
    (hemit : ∀ a row, (emit a row).messagePk = a.messagePk) :
    (∀ r ∈ (ftsRows.filterMap (fun a =>
        (rowDictLookup (store.filter metaPred) a.messagePk).map (emit a))).take limit,
      ∃ msg ∈ store, msg.pk = r.messagePk ∧ metaPred msg = true) ∧
    List.Sublist (((ftsRows.filterMap (fun a =>
        (rowDictLookup (store.filter metaPred) a.messagePk).map (emit a))).take
          limit).map (fun r => r.messagePk))
      (ftsRows.map (fun a => a.messagePk)) := by
  constructor
  · intro r hr
    have hr2 := (List.take_sublist _ _).mem hr
    obtain ⟨a, ha, hg⟩ := List.mem_filterMap.mp hr2
    obtain ⟨row, hlook, hemitEq⟩ := Option.map_eq_some'.mp hg
    obtain ⟨hrowmem, hrowpk⟩ := rowDictLookup_eq_some hlook
    obtain ⟨hrowstore, hrowpred⟩ := List.mem_filter.mp hrowmem
    refine ⟨row, hrowstore, ?_, hrowpred⟩
    rw [hrowpk, ← hemitEq, hemit]
  · rw [List.map_take]
    refine (List.take_sublist _ _).trans ?_
    refine map_filterMap_sublist _ _ _ _ ?_
    intro a b hab
    obtain ⟨row, _, hemitEq⟩ := Option.map_eq_some'.mp hab
    rw [← hemitEq, hemit]

/-- Claim C3 (cross-database join soundness): for `search_emails` and
`search_transcripts`, every emitted result's identifier is backed by a row in
the transactional store, the emitted identifier sequence preserves the
relevance-rank order of the driving FTS hit list (it is a sublist of it), and
a hit whose identifier has no row in the transactional store is silently
dropped — no result carries it. -/
theorem search_join_soundness (store : List Message) (ftsAll : List FtsHit)
    (sd ed : Option Int) (limit : Nat) :
    (∀ r ∈ (search_emails store ftsAll sd ed limit).results,
      ∃ msg ∈ store, msg.pk = r.messagePk) ∧
    List.Sublist
      ((search_emails store ftsAll sd ed limit).results.map (fun r => r.messagePk))
      ((ftsRowsFor ftsAll (limit * 2)).map (fun a => a.messagePk)) ∧
    (∀ a ∈ ftsRowsFor ftsAll (limit * 2),
      (¬ ∃ msg ∈ store, msg.pk = a.messagePk) →
      ∀ r ∈ (search_emails store ftsAll sd ed limit).results,
        r.messagePk ≠ a.messagePk) ∧
    (∀ r ∈ (search_transcripts store ftsAll sd ed limit).results,
      ∃ msg ∈ store, msg.pk = r.messagePk) ∧
    List.Sublist
      ((search_transcripts store ftsAll sd ed limit).results.map
        (fun r => r.messagePk))
      ((ftsRowsFor ftsAll (limit * 2)).map (fun a => a.messagePk)) ∧
    (∀ a ∈ ftsRowsFor ftsAll (limit * 2),
      (¬ ∃ msg ∈ store, msg.pk = a.messagePk) →
      ∀ r ∈ (search_transcripts store ftsAll sd ed limit).results,
        r.messagePk ≠ a.messagePk) := by
  have hE := searchShape_sound store
    (searchEmailsMetaPred
      ((ftsRowsFor ftsAll (limit * 2)).map (fun x => x.messagePk)) sd ed)
    (ftsRowsFor ftsAll (limit * 2)) limit
    (fun a meta =>
      ({ messagePk := a.messagePk
         subject := pyOrStr meta.subject "(No Subject)"
         sender := pyOrStr meta.messageFrom "Unknown"
         receivedDate := meta.receivedDate
         excerpt := pyOrStr (some a.excerpt) ""
         relevanceScore := -a.rank } : SearchItem))
    (fun _ _ => rfl)
  have hT := searchShape_sound store
    (searchTranscriptsMetaPred
      ((ftsRowsFor ftsAll (limit * 2)).map (fun x => x.messagePk)) sd ed)
    (ftsRowsFor ftsAll (limit * 2)) limit
    (fun a meta =>
      ({ messagePk := a.messagePk
         subject := pyOrStr meta.subject "Untitled"
         sender := pyOrStr meta.messageFrom "Unknown"
         receivedDate := meta.receivedDate
         excerpt := pyOrStr (some a.excerpt) ""
         relevanceScore := -a.rank } : SearchItem))
    (fun _ _ => rfl)
  rw [search_emails_results_eq store ftsAll sd ed limit] at *
  rw [search_transcripts_results_eq store ftsAll sd ed limit] at *
  refine ⟨?_, hE.2, ?_, ?_, hT.2, ?_⟩
  · intro r hr
    obtain ⟨msg, hmsg, hpk, _⟩ := hE.1 r hr
    exact ⟨msg, hmsg, hpk⟩
  · intro a _ hno r hr heq
    obtain ⟨msg, hmsg, hpk, _⟩ := hE.1 r hr
    exact hno ⟨msg, hmsg, hpk.trans heq⟩
  · intro r hr
    obtain ⟨msg, hmsg, hpk, _⟩ := hT.1 r hr
    exact ⟨msg, hmsg, hpk⟩
  · intro a _ hno r hr heq
    obtain ⟨msg, hmsg, hpk, _⟩ := hT.1 r hr
    exact hno ⟨msg, hmsg, hpk.trans heq⟩

/-- Witness for C3: a hit on identifier 7 against an empty transactional
store yields no result carrying identifier 7 in either search method. -/
theorem search_join_soundness_witness :
    (∀ r ∈ (search_emails [] [ftsHitGhostFx] none none 3).results,
      r.messagePk ≠ 7) ∧
    (∀ r ∈ (search_transcripts [] [ftsHitGhostFx] none none 3).results,
      r.messagePk ≠ 7) := by
  constructor
  · intro r hr
    exact (search_join_soundness [] [ftsHitGhostFx] none none 3).2.2.1
      ftsHitGhostFx (by decide) (by simp) r hr
  · intro r hr
    exact (search_join_soundness [] [ftsHitGhostFx] none none 3).2.2.2.2.2
      ftsHitGhostFx (by decide) (by simp) r hr

/-- Unfolding of the `find_pending_responses` WHERE clause into its logical
components. -/
theorem pendingFilter_iff {store : List Message} {cutoff : Int} {m : Message} :
    pendingFilter store cutoff m = true ↔
    (m.inInbox = 1 ∧ m.receivedDate ≥ cutoff ∧ metaLikeMtid m.meta = false ∧
     ¬ ∃ reply ∈ store, reply.conversationPk = m.conversationPk ∧
        reply.inSent = 1 ∧ reply.receivedDate > m.receivedDate) := by
  simp only [pendingFilter, Bool.and_eq_true, Bool.not_eq_true', List.any_eq_false,
    metaNotLike_eq, beq_iff_eq, decide_eq_true_eq, Bool.not_eq_true, and_assoc,
    not_exists, not_and]

/-- Claim C4, counterexample: a transcript-marked inbox message inside the
lookback window with no sent reply in its conversation is nevertheless absent
from `find_pending_responses` — the code additionally filters out
transcript-marked messages, so the claim's "for every inbox message" iff is
false as stated. -/
theorem pending_responses_cex :
    (find_pending_responses [msgPendingMtidFx] 1000 1 20).emails = [] ∧
    msgPendingMtidFx.inInbox = 1 ∧
    msgPendingMtidFx.receivedDate ≥ 1000 - 1 * 86400 ∧
    ¬ ∃ reply ∈ [msgPendingMtidFx],
        reply.conversationPk = msgPendingMtidFx.conversationPk ∧
        reply.inSent = 1 ∧
        reply.receivedDate > msgPendingMtidFx.receivedDate := by
  refine ⟨by decide, by decide, by decide, by decide⟩

/-- Claim C4, amended (pending-response anti-join): every message emitted by
`find_pending_responses` is an inbox message inside the lookback window, not
transcript-marked, with no sent message in its conversation carrying a
strictly later received timestamp (so a conversation with such a later sent
reply is never included); conversely, every such non-transcript inbox message
is emitted whenever the qualifying rows fit within the limit. -/
theorem pending_responses_anti_join (store : List Message) (now days : Int)
    (limit : Nat) (m : Message) :
    (∀ item ∈ (find_pending_responses store now days limit).emails,
      ∃ msg ∈ store, msg.pk = item.messagePk ∧ msg.inInbox = 1 ∧
        msg.receivedDate ≥ now - days * 86400 ∧ metaLikeMtid msg.meta = false ∧
        ¬ ∃ reply ∈ store, reply.conversationPk = msg.conversationPk ∧
            reply.inSent = 1 ∧ reply.receivedDate > msg.receivedDate) ∧
    (m ∈ store → m.inInbox = 1 → m.receivedDate ≥ now - days * 86400 →
      metaLikeMtid m.meta = false →
      (¬ ∃ reply ∈ store, reply.conversationPk = m.conversationPk ∧
          reply.inSent = 1 ∧ reply.receivedDate > m.receivedDate) →
      (store.filter (pendingFilter store (now - days * 86400))).length ≤ limit →
      ∃ item ∈ (find_pending_responses store now days limit).emails,
        item.messagePk = m.pk) := by
  constructor
  · intro item hitem
    simp only [find_pending_responses, List.mem_map] at hitem
    obtain ⟨r, hr, hproj⟩ := hitem
    have hr2 := mem_sortByRecvDesc.mp ((List.take_sublist _ _).mem hr)
    obtain ⟨hrs, hpred⟩ := List.mem_filter.mp hr2
    obtain ⟨h1, h2, h3, h4⟩ := pendingFilter_iff.mp hpred
    subst hproj
    exact ⟨r, hrs, rfl, h1, h2, h3, h4⟩
  · intro hm h1 h2 h3 h4 hlen
    have hp : pendingFilter store (now - days * 86400) m = true :=
      pendingFilter_iff.mpr ⟨h1, h2, h3, h4⟩
    have hmem : m ∈ sortByRecvDesc
        (store.filter (pendingFilter store (now - days * 86400))) :=
      mem_sortByRecvDesc.mpr (List.mem_filter.mpr ⟨hm, hp⟩)
    have htake : (sortByRecvDesc
        (store.filter (pendingFilter store (now - days * 86400)))).take limit =
        sortByRecvDesc (store.filter (pendingFilter store (now - days * 86400))) := by
      refine List.take_of_length_le ?_
      rw [length_sortByRecvDesc]
      exact hlen
    simp only [find_pending_responses, List.mem_map]
    rw [htake]
    exact ⟨_, ⟨m, hmem, rfl⟩, rfl⟩

/-- Witness for C4 (amended): an unmarked, unanswered inbox message inside
the window is reported by `find_pending_responses`. -/
theorem pending_responses_anti_join_witness :
    ∃ item ∈ (find_pending_responses [msgPendingOkFx] 1000 1 20).emails,
      item.messagePk = 4 := by
  exact (pending_responses_anti_join [msgPendingOkFx] 1000 1 20
    msgPendingOkFx).2 (by decide) (by decide) (by decide) (by decide)
    (by decide) (by decide)

/-- Unfolding of the prep heuristic into its logical components. -/
theorem needsPrep_iff {atts : List Attendee} {e : CalEvent} :
    needsPrep atts e = true ↔
    (attendeeCountOf atts e.pk > 1 ∨ optStrTruthy e.conferenceInfo = true ∨
     e.dend - e.dstart > 1800) := by
  simp [needsPrep, Bool.or_eq_true, or_assoc]

/-- Unfolding of the prep-window SQL predicate. -/
theorem prepWindow_iff {now stop : Int} {e : CalEvent} :
    prepWindow now stop e = true ↔
    (e.dstart ≥ now ∧ e.dstart < stop ∧ e.status ≠ 3) := by
  simp only [prepWindow, Bool.and_eq_true, decide_eq_true_eq, bne_iff_ne,
    ne_eq, and_assoc]

/-- Claim C5 (meeting-prep predicate): every event emitted by
`find_events_needing_prep` is a non-cancelled event starting inside the
forward window with more than one attendee, or a conference link, or a
duration strictly over 30 minutes; conversely any such event is emitted when
the window rows fit within the limit.  In particular, on a concrete store, a
2-attendee, no-conference, 10-minute event is included and a 1-attendee,
no-conference, 10-minute event is excluded. -/
theorem events_needing_prep_pred (cal : List CalEvent) (atts : List Attendee)
    (now : Int) (hoursAhead : Int) (limit : Nat) (e : CalEvent) :
    (∀ item ∈ (find_events_needing_prep cal atts now hoursAhead limit).events,
      ∃ ev ∈ cal, ev.pk = item.eventPk ∧ ev.dstart ≥ now ∧
        ev.dstart < now + hoursAhead * 3600 ∧ ev.status ≠ 3 ∧
        (attendeeCountOf atts ev.pk > 1 ∨ optStrTruthy ev.conferenceInfo = true ∨
         ev.dend - ev.dstart > 1800)) ∧
    (e ∈ cal → e.dstart ≥ now → e.dstart < now + hoursAhead * 3600 →
      e.status ≠ 3 →
      (attendeeCountOf atts e.pk > 1 ∨ optStrTruthy e.conferenceInfo = true ∨
       e.dend - e.dstart > 1800) →
      (cal.filter (prepWindow now (now + hoursAhead * 3600))).length ≤ limit →
      ∃ item ∈ (find_events_needing_prep cal atts now hoursAhead limit).events,
        item.eventPk = e.pk) ∧
    ((find_events_needing_prep [evPrepIncFx] attsTwoFx 0 24 20).events.map
      (fun i => i.eventPk) = [9]) ∧
    ((find_events_needing_prep [evPrepExcFx] attsOneFx 0 24 20).events = []) := by
  refine ⟨?_, ?_, by decide, by decide⟩
  · intro item hitem
    simp only [find_events_needing_prep, List.mem_map] at hitem
    obtain ⟨ev, hev, hproj⟩ := List.mem_map.mp ((List.take_sublist _ _).mem hitem)
    obtain ⟨hrows, hprep⟩ := List.mem_filter.mp hev
    have hwin := mem_sortByDstart.mp ((List.take_sublist _ _).mem hrows)
    obtain ⟨hcal, hwpred⟩ := List.mem_filter.mp hwin
    obtain ⟨hw1, hw2, hw3⟩ := prepWindow_iff.mp hwpred
    subst hproj
    exact ⟨ev, hcal, rfl, hw1, hw2, hw3, needsPrep_iff.mp hprep⟩
  · intro hm h1 h2 h3 h4 hlen
    have hwin : prepWindow now (now + hoursAhead * 3600) e = true :=
      prepWindow_iff.mpr ⟨h1, h2, h3⟩
    have hsorted : e ∈ sortByDstart
        (cal.filter (prepWindow now (now + hoursAhead * 3600))) :=
      mem_sortByDstart.mpr (List.mem_filter.mpr ⟨hm, hwin⟩)
    have htake2 : (sortByDstart
        (cal.filter (prepWindow now (now + hoursAhead * 3600)))).take (limit * 2) =
        sortByDstart (cal.filter (prepWindow now (now + hoursAhead * 3600))) := by
      refine List.take_of_length_le ?_
      rw [length_sortByDstart]
      omega
    have hfl : ((sortByDstart
        (cal.filter (prepWindow now (now + hoursAhead * 3600)))).filter
          (needsPrep atts)).length ≤ limit := by
      refine le_trans (List.length_filter_le _ _) ?_
      rw [length_sortByDstart]
      exact hlen
    simp only [find_events_needing_prep]
    rw [htake2, List.take_of_length_le (by simpa using hfl)]
    simp only [List.mem_map]
    exact ⟨_, ⟨e, List.mem_filter.mpr ⟨hsorted, needsPrep_iff.mpr h4⟩, rfl⟩, rfl⟩

/-- Witness for C5: the 2-attendee, no-conference, 10-minute fixture is
reported via the inclusion direction of the predicate. -/
theorem events_needing_prep_pred_witness :
    ∃ item ∈ (find_events_needing_prep [evPrepIncFx] attsTwoFx 0 24 7).events,
      item.eventPk = 9 := by
  exact (events_needing_prep_pred [evPrepIncFx] attsTwoFx 0 24 7 evPrepIncFx).2.1
    (by decide) (by decide) (by decide) (by decide) (by decide) (by decide)

/-- Claim C6 (signature placement geometry): for requested width `w` and an
image of aspect ratio `ih / iw`, both `add_signature` and `fill_and_sign`
(without a signature-field override) insert a rectangle of width `w` and
height `w * (ih / iw)` whatever the page size; in `fill_and_sign`, when
`y_from_top` is supplied the rectangle's bottom edge (`y1`, in top-origin
coordinates) equals it exactly, and `y_from_top` takes precedence over `y`
when both are supplied. -/
theorem signature_placement_geometry (pw ph iw ih : ℚ) (xo yo yf : Option ℚ)
    (t y w : ℚ) :
    ((addSignatureRect pw ph iw ih xo yo w).rectWidth = w ∧
     (addSignatureRect pw ph iw ih xo yo w).rectHeight = w * (ih / iw)) ∧
    ((fillAndSignRect pw ph iw ih none xo yo yf w).rectWidth = w ∧
     (fillAndSignRect pw ph iw ih none xo yo yf w).rectHeight = w * (ih / iw)) ∧
    (fillAndSignRect pw ph iw ih none xo yo (some t) w).y1 = t ∧
    fillAndSignRect pw ph iw ih none xo (some y) (some t) w =
      fillAndSignRect pw ph iw ih none xo none (some t) w := by
  refine ⟨⟨?_, ?_⟩, ⟨?_, ?_⟩, ?_, ?_⟩
  · simp only [addSignatureRect, Rect.rectWidth]
    ring
  · simp only [addSignatureRect, Rect.rectHeight]
    ring
  · cases yf <;> cases yo <;>
      simp only [fillAndSignRect, Rect.rectWidth] <;> ring
  · cases yf <;> cases yo <;>
      simp only [fillAndSignRect, Rect.rectHeight] <;> ring
  · cases yo <;> simp [fillAndSignRect]
  · rfl

/-- Claim C8 (delete idempotence on an absent name): deleting a template name
that is not in the store reports `success = false` with the "not found"
message, leaves the store unchanged, and `list_pdf_templates` before and after
coincide; no error is raised (the operation is total). -/
theorem delete_absent_template (s : TemplateStore) (n : String)
    (h : s.any (fun p => p.1 == n) = false) :
    delete_pdf_template s n =
      (s, { success := false, templateName := n,
            message := "Template \x27" ++ n ++ "\x27 not found" }) ∧
    list_pdf_templates (delete_pdf_template s n).1 = list_pdf_templates s := by
  constructor
  · simp [delete_pdf_template, delete_template, h]
  · simp [delete_pdf_template, delete_template, h]

/-- Witness for C8 at a concrete store and absent name. -/
theorem delete_absent_template_witness :
    delete_pdf_template tmplStoreFx "b" =
      (tmplStoreFx,
       { success := false, templateName := "b",
         message := "Template \x27b\x27 not found" }) ∧
    list_pdf_templates (delete_pdf_template tmplStoreFx "b").1 =
      list_pdf_templates tmplStoreFx := by
  exact delete_absent_template tmplStoreFx "b" (by decide)

/-- Saving and then loading a template under the same name returns exactly the
saved payload. -/
theorem load_save_template (s : TemplateStore) (n : String) (d : TemplateData) :
    load_template (save_template s n d) n = some d := by
  simp [load_template, save_template]

/-- Claim C7 (template round-trip): after `save_pdf_template`, filling from
the template with a value for every non-signature field reproduces, for each
non-signature field whose page resolves in the target document, a text
placement on that saved page at the saved `x` and at top-origin
`pageHeight − y` — i.e. at the saved distance-from-bottom `y` — with the saved
font size (a `"auto"` value on a date field is replaced by the current date
string; all other values are placed verbatim). -/
theorem template_round_trip (s : TemplateStore) (nm : String)
    (fields : List TemplateField) (desc : Option String) (pageHeights : List ℚ)
    (values : String → Option String) (sign : Bool) (sigImage : Option (ℚ × ℚ))
    (todayStr : String) (f : TemplateField) (v : String) (idx : Nat)
    (hf : f ∈ fields) (hns : f.type ≠ "signature")
    (hv : values f.fieldName = some v)
    (hidx : resolvePageIdx pageHeights.length f.page = some idx) :
    load_template (save_pdf_template s nm fields desc).1 nm =
      some { name := nm, description := pyOrStr desc "", fields := fields } ∧
    ∃ res, fill_from_template pageHeights (save_pdf_template s nm fields desc).1
        nm values sign sigImage todayStr = some res ∧
      PdfAction.placeText idx f.x (pageHeights.getD idx 0 - f.y) f.fontSize
        (if f.type = "date" && v.toLower = "auto" then todayStr else v)
        ∈ res.actions := by
  have hload : load_template (save_pdf_template s nm fields desc).1 nm =
      some { name := nm, description := pyOrStr desc "", fields := fields } :=
    load_save_template s nm _
  refine ⟨hload, ?_⟩
  refine ⟨_, by rw [fill_from_template, hload]; rfl, ?_⟩
  simp only [List.mem_filterMap]
  refine ⟨f, hf, ?_⟩
  simp only [templateFieldAction, hv, hidx]
  simp [hns]

/-- Witness for C7: a one-field template saved and replayed places the value
at the saved coordinates. -/
theorem template_round_trip_witness :
    ∃ res, fill_from_template [800]
        (save_pdf_template [] "appendix" [tmplFieldFx] (some "demo")).1
        "appendix" tmplValuesFx false none "January 01, 2026" = some res ∧
      PdfAction.placeText 0 72 (800 - 120) 12 "Alice Smith" ∈ res.actions := by
  have h := template_round_trip [] "appendix" [tmplFieldFx] (some "demo") [800]
    tmplValuesFx false none "January 01, 2026" tmplFieldFx "Alice Smith" 0
    (by decide) (by decide) (by decide) (by decide)
  have h2 := h.2
  obtain ⟨res, hres, hmem⟩ := h2
  refine ⟨res, hres, ?_⟩
  simpa using hmem

/-! ## Dispatch-boundary helper lemmas -/

theorem eff_pure {α : Type} (a : α) : (pure a : Eff α) = Except.ok (a, []) := rfl

theorem singleOk_pure (s : String) : SingleOk (pure [s]) := by
  intro msgs log hm
  rw [eff_pure] at hm
  cases hm
  exact ⟨s, rfl⟩

theorem singleOk_ite (c : Prop) [Decidable c] (x y : Eff (List String))
    (hx : SingleOk x) (hy : SingleOk y) : SingleOk (if c then x else y) := by
  split
  · exact hx
  · exact hy

theorem bindE_ok {α β : Type} {x : Eff α} {f : α → Eff β} {b : β}
    {log : List BCall} (hm : Eff.bindE x f = Except.ok (b, log)) :
    ∃ a l2, f a = Except.ok (b, l2) := by
  rw [Eff.bindE.eq_def] at hm
  split at hm
  · cases hm
  · rename_i a l
    split at hm
    · cases hm
    · rename_i bv lv hfa
      rw [Except.ok.injEq, Prod.mk.injEq] at hm
      exact ⟨a, lv, hm.1 ▸ hfa⟩

theorem singleOk_bind {α : Type} (x : Eff α) (f : α → Eff (List String))
    (h : ∀ a, SingleOk (f a)) : SingleOk (x >>= f) := by
  intro msgs log hm
  obtain ⟨a, l2, hfa⟩ := bindE_ok hm
  exact h a msgs l2 hfa

set_option maxRecDepth 10000 in
/-- Every completed dispatch branch returns exactly one text content. -/
theorem tryDispatch_singleOk (backend : Backend) (name : String)
    (args : ArgBag) : SingleOk (tryDispatch backend name args) := by
  unfold tryDispatch
  repeat
    first
    | apply singleOk_ite
    | apply singleOk_pure
    | (apply singleOk_bind; intro a)
    | (cases a <;> apply singleOk_pure)

/-- Claim C9 (dispatch never crashes): `call_tool` always returns a plain text
response — an uncaught exception inside the `try:` body is converted into an
`"Error: <message>"` text; a completed branch returns its single text; and for
every required-argument validation in the dispatch table, a falsy required
argument makes the branch return the plain `"Error: <arg> required"` text with
no backend call performed. -/
theorem dispatch_never_crashes (backend : Backend) (name : String)
    (args : ArgBag) :
    (∀ e, tryDispatch backend name args = Except.error e →
      call_tool backend name args = ["Error: " ++ e]) ∧
    (∀ msgs log, tryDispatch backend name args = Except.ok (msgs, log) →
      call_tool backend name args = msgs ∧ ∃ s, msgs = [s]) ∧
    (∀ c ∈ requiredArgChecks, name = c.tool →
      (∀ p ∈ c.priors, (getArg args p).truthy = true) →
      (getArg args c.argName).truthy = false →
      tryDispatch backend name args =
        Except.ok (["Error: " ++ c.argName ++ " required"], [])) ∧
    (name = "fill_pdf_form" → (getArg args "filePath").truthy = true →
      (getArg args "fields").truthy = false →
      (getArg args "checkboxes").truthy = false →
      tryDispatch backend name args =
        Except.ok (["Error: fields or checkboxes required"], [])) := by
  refine ⟨?_, ?_, ?_, ?_⟩
  · intro e he
    simp [call_tool, he]
  · intro msgs log hm
    refine ⟨by simp [call_tool, hm], ?_⟩
    exact tryDispatch_singleOk backend name args msgs log hm
  · intro c hc
    simp only [requiredArgChecks, List.mem_cons, List.not_mem_nil, or_false] at hc
    rcases hc with rfl|rfl|rfl|rfl|rfl|rfl|rfl|rfl|rfl|rfl|rfl|rfl|rfl|rfl|rfl|rfl|rfl|rfl|rfl|rfl|rfl <;>
      · intro hname hpriors hmiss
        subst hname
        simp only [List.forall_mem_cons, List.forall_mem_nil, and_true] at hpriors
        simp_all [tryDispatch, eff_pure]
  · intro hname h1 h2 h3
    subst hname
    simp_all [tryDispatch, eff_pure]

/-- Witness for C9: with a backend returning `None` and concrete argument
bags — a bad `limit` string makes the coercion raise and `call_tool` reports
`"Error: …"`, a missing `messagePk` yields the plain validation text with no
backend call, and a completed branch returns its single serialised text. -/
theorem dispatch_never_crashes_witness :
    call_tool backendNullFx "list_emails" argsBadLimitFx =
      ["Error: invalid literal for int() with base 10: x"] ∧
    tryDispatch backendNullFx "get_email" argsEmptyFx =
      Except.ok (["Error: messagePk required"], []) ∧
    (call_tool backendNullFx "get_daily_briefing" argsEmptyFx = ["null"] ∧
     ∃ s, ["null"] = [s]) := by
  refine ⟨?_, ?_, ?_⟩
  · exact (dispatch_never_crashes backendNullFx "list_emails"
      argsBadLimitFx).1 "invalid literal for int() with base 10: x" rfl
  · exact (dispatch_never_crashes backendNullFx "get_email" argsEmptyFx).2.2.1
      ⟨"get_email", [], "messagePk"⟩ (by simp [requiredArgChecks]) rfl
      (fun p hp => absurd hp (List.not_mem_nil p)) rfl
  · exact (dispatch_never_crashes backendNullFx "get_daily_briefing"
      argsEmptyFx).2.1 ["null"] [⟨"get_daily_briefing", []⟩] rfl

/-- Claim C10 (search totals are page lengths): for `search_emails` and
`search_transcripts` the reported `total` equals the length of the returned
results list, which is at most `limit` — it is not the full count of matches
in the full-text index: on a concrete store where all three index matches are
joinable, limit 1 reports total 1 while limit 10 reports total 3. -/
theorem search_total_is_page_length (store : List Message)
    (ftsAll : List FtsHit) (sd ed : Option Int) (limit : Nat) :
    ((search_emails store ftsAll sd ed limit).total =
      (search_emails store ftsAll sd ed limit).results.length ∧
     (search_emails store ftsAll sd ed limit).results.length ≤ limit) ∧
    ((search_transcripts store ftsAll sd ed limit).total =
      (search_transcripts store ftsAll sd ed limit).results.length ∧
     (search_transcripts store ftsAll sd ed limit).results.length ≤ limit) ∧
    (search_emails storeInvFx ftsTripleFx none none 1).total = 1 ∧
    (search_emails storeInvFx ftsTripleFx none none 10).total = 3 ∧
    ftsTripleFx.length = 3 := by
  refine ⟨⟨?_, ?_⟩, ⟨?_, ?_⟩, by decide, by decide, by decide⟩
  · by_cases hE : (ftsRowsFor ftsAll (limit * 2)).isEmpty
    · simp [search_emails, hE]
    · simp only [Bool.not_eq_true] at hE
      simp [search_emails, hE]
  · rw [search_emails_results_eq]
    simp only [List.length_take]
    exact min_le_left _ _
  · by_cases hE : (ftsRowsFor ftsAll (limit * 2)).isEmpty
    · simp [search_transcripts, hE]
    · simp only [Bool.not_eq_true] at hE
      simp [search_transcripts, hE]
  · rw [search_transcripts_results_eq]
    simp only [List.length_take]
    exact min_le_left _ _

end SparkMCP
